import Mathlib

/-!
# kube-score container checks

A shallow embedding of `score/container.go`: the five container checks
(`scoreContainerLimits`, `scoreContainerImageTag`, `scoreContainerImagePullPolicy`,
`scoreContainerProbes`, `scoreContainerSecurityContext`) as pure functions from a pod
template to a `TestScore`, followed by theorems about what they compute.

Go maps (`Labels`, `Selector`, `ResourceList`) are association lists looked up by first
key; Go pointers that may be nil are `Option`; every `for ... range` loop over containers
is a left fold of an explicit loop-state record.
-/

set_option autoImplicit false

namespace KubeScore

/-! ## Library types used by the checks -/

/-- The discriminator of `intstr.IntOrString`. -/
inductive IntstrType where
  | Int
  | String
deriving DecidableEq, Repr

/-- The Kubernetes `intstr.IntOrString`: an int32 or a string, with its discriminator. -/
structure IntOrString where
  Typ : IntstrType
  IntVal : Int
  StrVal : String
deriving DecidableEq, Repr

/-- Outcome of Go's `strconv.ParseUint(s, 10, 0)` on a 64-bit platform: a value with a
nil error, or a syntax error (returned value 0), or a range error (returned value
`2^64 - 1`). -/
inductive UintResult where
  | value (n : Nat)
  | syntaxError
  | rangeError
deriving DecidableEq, Repr

/-- The loop of `strconv.ParseUint` in base 10, with `n` the value read so far. The bytes
are read left to right: a byte that is not a decimal digit returns a syntax error; a digit
with which the value would pass `2^64 - 1` returns a range error at once, whatever
follows it. -/
def parseUintLoop : List Char → Nat → UintResult
  | [], n => UintResult.value n
  | c :: cs, n =>
    if 48 ≤ c.toNat ∧ c.toNat ≤ 57 then
      if n * 10 + (c.toNat - 48) ≥ 2 ^ 64 then UintResult.rangeError
      else parseUintLoop cs (n * 10 + (c.toNat - 48))
    else UintResult.syntaxError

/-- Go's `strconv.ParseUint(s, 10, 0)`: the empty string is a syntax error. -/
def ParseUint (s : List Char) : UintResult :=
  match s with
  | [] => UintResult.syntaxError
  | _ :: _ => parseUintLoop s 0

/-- The value returned by Go's `strconv.ParseInt(s, 10, 0)` on a 64-bit platform: 0 on a
syntax error; on a range error, and for a magnitude outside the `int64` range, the nearest
`int64`. -/
def ParseInt (s : List Char) : Int :=
  match s with
  | [] => 0
  | c :: cs =>
    let neg : Bool := decide (c = '-')
    let digits := if c = '+' ∨ c = '-' then cs else c :: cs
    match ParseUint digits with
    | UintResult.syntaxError => 0
    | UintResult.rangeError => if neg then -(2 ^ 63 : Int) else (2 ^ 63 : Int) - 1
    | UintResult.value un =>
      if !neg && decide (un ≥ 2 ^ 63) then (2 ^ 63 : Int) - 1
      else if neg && decide (un > 2 ^ 63) then -(2 ^ 63 : Int)
      else if neg then -(un : Int) else (un : Int)

/-- The loop of the fast path of `strconv.Atoi`: the value of a run of decimal digits,
`none` at a byte that is not one. -/
def atoiFast : List Char → Nat → Option Nat
  | [], n => some n
  | ch :: rest, n =>
    if 48 ≤ ch.toNat ∧ ch.toNat ≤ 57 then atoiFast rest (n * 10 + (ch.toNat - 48)) else none

/-- The value returned by Go's `strconv.Atoi` on a 64-bit platform, the error dropped as in
`i, _ := strconv.Atoi(s)`: the fast path for a string of 1 to 18 bytes (an optional sign,
then digits; 0 on any other byte or when nothing follows the sign), `ParseInt` otherwise. -/
def Atoi (s : String) : Int :=
  if 0 < s.utf8ByteSize ∧ s.utf8ByteSize < 19 then
    match s.data with
    | [] => 0
    | c :: cs =>
      let digits := if c = '-' ∨ c = '+' then cs else c :: cs
      match digits with
      | [] => 0
      | _ :: _ =>
        match atoiFast digits 0 with
        | none => 0
        | some n => if c = '-' then -(n : Int) else (n : Int)
  else ParseInt s.data

/-- The method `(*IntOrString).IntValue`: the integer, or the string parsed as one. -/
def IntOrString.IntValue (p : IntOrString) : Int :=
  if p.Typ = IntstrType.String then Atoi p.StrVal else p.IntVal

/-- A `resource.Quantity`, reduced to its unscaled amount: `IsZero` reads nothing else. -/
structure Quantity where
  value : Int
deriving DecidableEq, Repr

/-- The method `(*Quantity).IsZero`. -/
def Quantity.IsZero (q : Quantity) : Bool :=
  decide (q.value = 0)

/-- A `corev1.ResourceList`, a map from resource name to quantity. -/
abbrev ResourceList := List (String × Quantity)

/-- The method `(*ResourceList).Cpu`: the entry under `cpu`, or a zero quantity. -/
def ResourceList.Cpu (self : ResourceList) : Quantity :=
  match self.lookup "cpu" with
  | some val => val
  | none => ⟨0⟩

/-- The method `(*ResourceList).Memory`: the entry under `memory`, or a zero quantity. -/
def ResourceList.Memory (self : ResourceList) : Quantity :=
  match self.lookup "memory" with
  | some val => val
  | none => ⟨0⟩

structure ResourceRequirements where
  Limits : ResourceList
  Requests : ResourceList
deriving DecidableEq, Repr

structure ExecAction where
  Command : List String
deriving DecidableEq, Repr

structure HTTPGetAction where
  Path : String
  Port : IntOrString
  Host : String
  Scheme : String
deriving DecidableEq, Repr

structure TCPSocketAction where
  Port : IntOrString
  Host : String
deriving DecidableEq, Repr

/-- A `corev1.Probe`, reduced to its embedded `Handler`: three pointers, each possibly nil. -/
structure Probe where
  Exec : Option ExecAction
  HTTPGet : Option HTTPGetAction
  TCPSocket : Option TCPSocketAction
deriving DecidableEq, Repr

structure SecurityContext where
  Privileged : Option Bool
  ReadOnlyRootFilesystem : Option Bool
  RunAsUser : Option Int
  RunAsGroup : Option Int
deriving DecidableEq, Repr

/-- The fields of `corev1.Container` the checks read. `ImagePullPolicy` is a string type. -/
structure Container where
  Name : String
  Image : String
  ImagePullPolicy : String
  Resources : ResourceRequirements
  ReadinessProbe : Option Probe
  LivenessProbe : Option Probe
  SecurityContext : Option SecurityContext
deriving DecidableEq, Repr

/-- The constant `corev1.PullAlways`. -/
def PullAlways : String := "Always"

structure PodSpec where
  InitContainers : List Container
  Containers : List Container
deriving DecidableEq, Repr

/-- A `corev1.PodTemplateSpec`; `Labels` is promoted from the embedded `ObjectMeta`. -/
structure PodTemplateSpec where
  Labels : List (String × String)
  Spec : PodSpec
deriving DecidableEq, Repr

structure ServiceSpec where
  Selector : List (String × String)
deriving DecidableEq, Repr

structure Service where
  Spec : ServiceSpec
deriving DecidableEq, Repr

/-! ## The finding sink -/

/-- Modelled from the spec: one comment of a `scorecard.TestScore` (the `scorecard`
package is not among the sources): a subject (container name, or empty for pod-level
findings), a short finding title and a longer remediation string. -/
structure TestScoreComment where
  Path : String
  Summary : String
  Description : String
deriving DecidableEq, Repr

/-- Modelled from the spec: `scorecard.TestScore` (the `scorecard` package is not among
the sources): a name, a grade and an ordered sequence of comments. -/
structure TestScore where
  Name : String
  Grade : Nat
  Comments : List TestScoreComment
deriving DecidableEq, Repr

/-- Modelled from the spec: the method `(*TestScore).AddComment` of the `scorecard`
package, not among the sources; the sink is append-only, so the new comment goes last. -/
def TestScore.AddComment (score : TestScore) (path summary description : String) : TestScore :=
  { score with Comments := score.Comments ++ [⟨path, summary, description⟩] }

/-- The zero value of `TestScore`, which a named result parameter starts as. -/
def TestScore.zero : TestScore := ⟨"", 0, []⟩

/-- The slice every check builds first: `append(InitContainers, Containers...)`. -/
def allContainers (podTemplate : PodTemplateSpec) : List Container :=
  podTemplate.Spec.InitContainers ++ podTemplate.Spec.Containers

/-! ## scoreContainerLimits -/

/-- The variables the loop of `scoreContainerLimits` updates. -/
structure LimitsState where
  score : TestScore
  hasMissingLimit : Bool
  hasMissingRequest : Bool
deriving DecidableEq, Repr

/-- One iteration of the loop of `scoreContainerLimits` (lines 22-39). -/
def limitsStep (st : LimitsState) (container : Container) : LimitsState :=
  let st :=
    if container.Resources.Limits.Cpu.IsZero then
      { st with
        score := st.score.AddComment container.Name "CPU limit is not set" "Resource limits are recommended to avoid resource DDOS. Set resources.limits.cpu"
        hasMissingLimit := true }
    else st
  let st :=
    if container.Resources.Limits.Memory.IsZero then
      { st with
        score := st.score.AddComment container.Name "Memory limit is not set" "Resource limits are recommended to avoid resource DDOS. Set resources.limits.memory"
        hasMissingLimit := true }
    else st
  let st :=
    if container.Resources.Requests.Cpu.IsZero then
      { st with
        score := st.score.AddComment container.Name "CPU request is not set" "Resource requests are recommended to make sure that the application can start and run without crashing. Set resources.requests.cpu"
        hasMissingRequest := true }
    else st
  if container.Resources.Requests.Memory.IsZero then
    { st with
      score := st.score.AddComment container.Name "Memory request is not set" "Resource requests are recommended to make sure that the application can start and run without crashing. Set resources.requests.memory"
      hasMissingRequest := true }
  else st

/-- The check `scoreContainerLimits` (lines 11-53). -/
def scoreContainerLimits (podTemplate : PodTemplateSpec) : TestScore :=
  let score := { TestScore.zero with Name := "Container Resources" }
  let cs := allContainers podTemplate
  let st := cs.foldl limitsStep ⟨score, false, false⟩
  if cs.length = 0 then
    ({ st.score with Grade := 0 }).AddComment "" "No containers defined" ""
  else if st.hasMissingLimit then
    { st.score with Grade := 0 }
  else if st.hasMissingRequest then
    { st.score with Grade := 5 }
  else
    { st.score with Grade := 10 }

/-! ## scoreContainerImageTag -/

/-- Go's `strings.Split` for a one-character separator, on the characters of the string:
the segments between occurrences of `sep`, never an empty list. -/
def splitChars (sep : Char) : List Char → List (List Char)
  | [] => [[]]
  | c :: cs =>
    if c = sep then [] :: splitChars sep cs
    else
      match splitChars sep cs with
      | [] => [[c]]
      | seg :: rest => (c :: seg) :: rest

/-- Lines 66-67: `imageParts[len(imageParts)-1]` of `strings.Split(image, ":")`. -/
def imageVersion (image : String) : String :=
  let imageParts := splitChars ':' image.data
  String.mk (imageParts.getLastD [])

/-- The variables the loop of `scoreContainerImageTag` updates. -/
structure ImageTagState where
  score : TestScore
  hasTagLatest : Bool
deriving DecidableEq, Repr

/-- One iteration of the loop of `scoreContainerImageTag` (lines 65-73). -/
def imageTagStep (st : ImageTagState) (container : Container) : ImageTagState :=
  if imageVersion container.Image = "latest" then
    { score := st.score.AddComment container.Name "Image with latest tag" "Using a fixed tag is recommended to avoid accidental upgrades"
      hasTagLatest := true }
  else st

/-- The check `scoreContainerImageTag` (lines 55-82). -/
def scoreContainerImageTag (podTemplate : PodTemplateSpec) : TestScore :=
  let score := { TestScore.zero with Name := "Container Image Tag" }
  let cs := allContainers podTemplate
  let st := cs.foldl imageTagStep ⟨score, false⟩
  if st.hasTagLatest then
    { st.score with Grade := 0 }
  else
    { st.score with Grade := 10 }

/-! ## scoreContainerImagePullPolicy -/

/-- The variables the loop of `scoreContainerImagePullPolicy` updates. -/
structure PullPolicyState where
  score : TestScore
  hasNonAlways : Bool
deriving DecidableEq, Repr

/-- One iteration of the loop of `scoreContainerImagePullPolicy` (lines 94-99). -/
def pullPolicyStep (st : PullPolicyState) (container : Container) : PullPolicyState :=
  if container.ImagePullPolicy ≠ PullAlways then
    { score := st.score.AddComment container.Name "ImagePullPolicy is not set to PullAlways" "It's recommended to always set the ImagePullPolicy to PullAlways, to make sure that the imagePullSecrets are always correct, and to always get the image you want."
      hasNonAlways := true }
  else st

/-- The check `scoreContainerImagePullPolicy` (lines 84-108). -/
def scoreContainerImagePullPolicy (podTemplate : PodTemplateSpec) : TestScore :=
  let score := { TestScore.zero with Name := "Container Image Pull Policy" }
  let cs := allContainers podTemplate
  let st := cs.foldl pullPolicyStep ⟨score, false⟩
  if st.hasNonAlways then
    { st.score with Grade := 0 }
  else
    { st.score with Grade := 10 }

/-! ## scoreContainerProbes -/

/-- Lines 122-128: both loops, over the services and over each selector's entries; the
flag is raised at an entry whose key is among the pod's labels with the same value. -/
def isTargetedByService (allServices : List Service) (podTemplate : PodTemplateSpec) : Bool :=
  allServices.foldl
    (fun targeted service =>
      service.Spec.Selector.foldl
        (fun targeted entry =>
          match podTemplate.Labels.lookup entry.1 with
          | some podLabelVal => if podLabelVal = entry.2 then true else targeted
          | none => targeted)
        targeted)
    false

/-- The variables the container loop of `scoreContainerProbes` updates. -/
structure ProbesState where
  score : TestScore
  hasReadinessProbe : Bool
  hasLivenessProbe : Bool
  probesAreIdentical : Bool
deriving DecidableEq, Repr

/-- Lines 168-173: the loop `for i, v := range r.Exec.Command`, started at index `i`,
looking for an index where `l.Exec.Command[i] != v`. It only runs on lists of equal
length, so the index is in range; an index out of range counts as a difference. -/
def execHasDifferent (lCommand : List String) : Nat → List String → Bool
  | _, [] => false
  | i, v :: rest =>
    if lCommand.get? i ≠ some v then true else execHasDifferent lCommand (i + 1) rest

/-- The two statements each of the three comparisons runs when the probes agree. -/
def markIdentical (st : ProbesState) (name : String) : ProbesState :=
  { st with
    probesAreIdentical := true
    score := st.score.AddComment name "Container has the same readiness and liveness probe" "It's recommended to have different probes for the two different purposes." }

/-- Lines 150-156: the HTTP comparison. -/
def httpStep (st : ProbesState) (name : String) (r l : Probe) : ProbesState :=
  match r.HTTPGet, l.HTTPGet with
  | some rh, some lh =>
    if rh.Path = lh.Path ∧ rh.Port.IntValue = lh.Port.IntValue then markIdentical st name else st
  | _, _ => st

/-- Lines 158-163: the TCP comparison. -/
def tcpStep (st : ProbesState) (name : String) (r l : Probe) : ProbesState :=
  match r.TCPSocket, l.TCPSocket with
  | some rt, some lt => if rt.Port = lt.Port then markIdentical st name else st
  | _, _ => st

/-- Lines 165-180: the exec comparison. -/
def execStep (st : ProbesState) (name : String) (r l : Probe) : ProbesState :=
  match r.Exec, l.Exec with
  | some re, some le =>
    if re.Command.length = le.Command.length then
      let hasDifferent := execHasDifferent le.Command 0 re.Command
      if !hasDifferent then markIdentical st name else st
    else st
  | _, _ => st

/-- One iteration of the container loop of `scoreContainerProbes` (lines 130-183). -/
def probesStep (isTargetedByService : Bool) (st : ProbesState) (container : Container) :
    ProbesState :=
  let st :=
    match container.ReadinessProbe with
    | some _ => { st with hasReadinessProbe := true }
    | none =>
      if isTargetedByService then
        { st with score := st.score.AddComment container.Name "Container is missing a readinessProbe" "Without a readinessProbe Services will start sending traffic to this pod before it's ready" }
      else st
  let st :=
    match container.LivenessProbe with
    | some _ => { st with hasLivenessProbe := true }
    | none =>
      { st with score := st.score.AddComment container.Name "Container is missing a livenessProbe" "Without a livenessProbe kubelet can not restart the Pod if it has crashed" }
  match container.ReadinessProbe, container.LivenessProbe with
  | some r, some l =>
    let st := httpStep st container.Name r l
    let st := tcpStep st container.Name r l
    execStep st container.Name r l
  | _, _ => st

/-- Lines 185-199: the grading ladder of `scoreContainerProbes`. -/
def probesGrade (hasLivenessProbe hasReadinessProbe isTargetedByService probesAreIdentical : Bool) :
    Nat :=
  if hasLivenessProbe && (hasReadinessProbe || !isTargetedByService) then
    if !probesAreIdentical then 10 else 7
  else if !hasReadinessProbe && !hasLivenessProbe then 0
  else if isTargetedByService && !hasReadinessProbe then 0
  else if !hasLivenessProbe then 5
  else 0

/-- The state of `scoreContainerProbes` after its container loop (line 183). -/
def probesLoop (allServices : List Service) (podTemplate : PodTemplateSpec) : ProbesState :=
  let score := { TestScore.zero with Name := "Pod Probes" }
  (allContainers podTemplate).foldl
    (probesStep (isTargetedByService allServices podTemplate)) ⟨score, false, false, false⟩

/-- The check `scoreContainerProbes` (lines 110-203), the closure applied to a template. -/
def scoreContainerProbes (allServices : List Service) (podTemplate : PodTemplateSpec) :
    TestScore :=
  let st := probesLoop allServices podTemplate
  { st.score with
    Grade := probesGrade st.hasLivenessProbe st.hasReadinessProbe
      (isTargetedByService allServices podTemplate) st.probesAreIdentical }

/-! ## scoreContainerSecurityContext -/

/-- The variables the loop of `scoreContainerSecurityContext` updates. -/
structure SecurityState where
  score : TestScore
  hasPrivileged : Bool
  hasWritableRootFS : Bool
  hasLowUserID : Bool
  hasLowGroupID : Bool
deriving DecidableEq, Repr

/-- Line 224: `sec.Privileged != nil && *sec.Privileged`. -/
def isPrivileged (sec : SecurityContext) : Bool :=
  match sec.Privileged with
  | some p => p
  | none => false

/-- Line 229: `sec.ReadOnlyRootFilesystem != nil && *sec.ReadOnlyRootFilesystem == false`. -/
def isWritableRootFS (sec : SecurityContext) : Bool :=
  match sec.ReadOnlyRootFilesystem with
  | some ro => ro == false
  | none => false

/-- Line 234: `sec.RunAsUser != nil && *sec.RunAsUser < 10000`. -/
def isLowUserID (sec : SecurityContext) : Bool :=
  match sec.RunAsUser with
  | some u => decide (u < 10000)
  | none => false

/-- Line 239: `sec.RunAsGroup != nil && *sec.RunAsGroup < 10000`. -/
def isLowGroupID (sec : SecurityContext) : Bool :=
  match sec.RunAsGroup with
  | some g => decide (g < 10000)
  | none => false

/-- One iteration of the loop of `scoreContainerSecurityContext` (lines 216-243). -/
def securityStep (st : SecurityState) (container : Container) : SecurityState :=
  match container.SecurityContext with
  | none => st
  | some sec =>
    let st :=
      if isPrivileged sec then
        { st with
          hasPrivileged := true
          score := st.score.AddComment container.Name "The container is privileged" "Set securityContext.Privileged to false" }
      else st
    let st :=
      if isWritableRootFS sec then
        { st with
          hasWritableRootFS := true
          score := st.score.AddComment container.Name "The pod has a container with a writable root filesystem" "Set securityContext.ReadOnlyFileSystem to true" }
      else st
    let st :=
      if isLowUserID sec then
        { st with
          hasLowUserID := true
          score := st.score.AddComment container.Name "The container is running with a low user ID" "A userid above 10 000 is recommended to avoid conflicts with the host. Set securityContext.RunAsUser to a value > 10000" }
      else st
    if isLowGroupID sec then
      { st with
        hasLowGroupID := true
        score := st.score.AddComment container.Name "The container running with a low group ID" "A groupid above 10 000 is recommended to avoid conflicts with the host. Set securityContext.RunAsGroup to a value > 10000" }
    else st

/-- The check `scoreContainerSecurityContext` (lines 205-252). -/
def scoreContainerSecurityContext (podTemplate : PodTemplateSpec) : TestScore :=
  let score := { TestScore.zero with Name := "Container Security Context" }
  let cs := allContainers podTemplate
  let st := cs.foldl securityStep ⟨score, false, false, false, false⟩
  if st.hasPrivileged || st.hasWritableRootFS || st.hasLowUserID || st.hasLowGroupID then
    { st.score with Grade := 0 }
  else
    { st.score with Grade := 10 }

/-! ## What one loop iteration contributes -/

/-- The comments one container adds in `scoreContainerLimits`, in the order of the four
tests. -/
def limitsComments (c : Container) : List TestScoreComment :=
  (if c.Resources.Limits.Cpu.IsZero then
    [⟨c.Name, "CPU limit is not set", "Resource limits are recommended to avoid resource DDOS. Set resources.limits.cpu"⟩]
   else []) ++
  (if c.Resources.Limits.Memory.IsZero then
    [⟨c.Name, "Memory limit is not set", "Resource limits are recommended to avoid resource DDOS. Set resources.limits.memory"⟩]
   else []) ++
  (if c.Resources.Requests.Cpu.IsZero then
    [⟨c.Name, "CPU request is not set", "Resource requests are recommended to make sure that the application can start and run without crashing. Set resources.requests.cpu"⟩]
   else []) ++
  (if c.Resources.Requests.Memory.IsZero then
    [⟨c.Name, "Memory request is not set", "Resource requests are recommended to make sure that the application can start and run without crashing. Set resources.requests.memory"⟩]
   else [])

/-- Some limit of the container is zero. -/
def missingLimit (c : Container) : Bool :=
  c.Resources.Limits.Cpu.IsZero || c.Resources.Limits.Memory.IsZero

/-- Some request of the container is zero. -/
def missingRequest (c : Container) : Bool :=
  c.Resources.Requests.Cpu.IsZero || c.Resources.Requests.Memory.IsZero

/-- A resource list has no entry for `name`, or an entry whose amount is zero. -/
def ZeroOrAbsent (rl : ResourceList) (name : String) : Prop :=
  rl.lookup name = none ∨ ∃ q, rl.lookup name = some q ∧ q.value = 0

/-- The tag of the container's image is the literal `latest`. -/
def hasLatestTag (c : Container) : Bool :=
  decide (imageVersion c.Image = "latest")

/-- The comment `scoreContainerImageTag` adds for a container. -/
def latestTagComment (c : Container) : TestScoreComment :=
  ⟨c.Name, "Image with latest tag", "Using a fixed tag is recommended to avoid accidental upgrades"⟩

/-- The pull policy of the container is not `Always`. -/
def notPullAlways (c : Container) : Bool :=
  decide (c.ImagePullPolicy ≠ PullAlways)

/-- The comment `scoreContainerImagePullPolicy` adds for a container. -/
def pullPolicyComment (c : Container) : TestScoreComment :=
  ⟨c.Name, "ImagePullPolicy is not set to PullAlways", "It's recommended to always set the ImagePullPolicy to PullAlways, to make sure that the imagePullSecrets are always correct, and to always get the image you want."⟩

/-- A test of the security context, false when the container has none. -/
def secFlag (f : SecurityContext → Bool) (c : Container) : Bool :=
  match c.SecurityContext with
  | some sec => f sec
  | none => false

/-- The comments one container adds in `scoreContainerSecurityContext`, in the order of
the four tests. -/
def securityComments (c : Container) : List TestScoreComment :=
  (if secFlag isPrivileged c then
    [⟨c.Name, "The container is privileged", "Set securityContext.Privileged to false"⟩]
   else []) ++
  (if secFlag isWritableRootFS c then
    [⟨c.Name, "The pod has a container with a writable root filesystem", "Set securityContext.ReadOnlyFileSystem to true"⟩]
   else []) ++
  (if secFlag isLowUserID c then
    [⟨c.Name, "The container is running with a low user ID", "A userid above 10 000 is recommended to avoid conflicts with the host. Set securityContext.RunAsUser to a value > 10000"⟩]
   else []) ++
  (if secFlag isLowGroupID c then
    [⟨c.Name, "The container running with a low group ID", "A groupid above 10 000 is recommended to avoid conflicts with the host. Set securityContext.RunAsGroup to a value > 10000"⟩]
   else [])

/-- The security context `sec` is flagged, in the words of the specification: privileged
set to true, or read-only root filesystem explicitly set to false, or run-as-user set to
a value below 10000, or run-as-group set to a value below 10000. -/
def Flagged (sec : SecurityContext) : Prop :=
  sec.Privileged = some true ∨ sec.ReadOnlyRootFilesystem = some false ∨
    (∃ u, sec.RunAsUser = some u ∧ u < 10000) ∨ (∃ g, sec.RunAsGroup = some g ∧ g < 10000)

/-- Lines 150-152 as a test: both probes have an HTTP action, with equal path and equal
resolved port. -/
def httpSame (r l : Probe) : Bool :=
  match r.HTTPGet, l.HTTPGet with
  | some rh, some lh => decide (rh.Path = lh.Path ∧ rh.Port.IntValue = lh.Port.IntValue)
  | _, _ => false

/-- Lines 158-159 as a test: both probes have a TCP action, with equal port. -/
def tcpSame (r l : Probe) : Bool :=
  match r.TCPSocket, l.TCPSocket with
  | some rt, some lt => decide (rt.Port = lt.Port)
  | _, _ => false

/-- Lines 165-175 as a test: both probes have an exec action, the commands have the same
length and the loop finds no difference. -/
def execSame (r l : Probe) : Bool :=
  match r.Exec, l.Exec with
  | some re, some le =>
    decide (re.Command.length = le.Command.length) && !execHasDifferent le.Command 0 re.Command
  | _, _ => false

/-- The comment each of the three comparisons adds when the probes agree. -/
def identityComment (name : String) : TestScoreComment :=
  ⟨name, "Container has the same readiness and liveness probe", "It's recommended to have different probes for the two different purposes."⟩

/-- The comment for a container without a readiness probe in a targeted pod. -/
def missingReadinessComment (name : String) : TestScoreComment :=
  ⟨name, "Container is missing a readinessProbe", "Without a readinessProbe Services will start sending traffic to this pod before it's ready"⟩

/-- The comment for a container without a liveness probe. -/
def missingLivenessComment (name : String) : TestScoreComment :=
  ⟨name, "Container is missing a livenessProbe", "Without a livenessProbe kubelet can not restart the Pod if it has crashed"⟩

/-- The identity comments one container adds, in the order HTTP, TCP, exec. -/
def identityComments (c : Container) : List TestScoreComment :=
  match c.ReadinessProbe, c.LivenessProbe with
  | some r, some l =>
    (if httpSame r l then [identityComment c.Name] else []) ++
    (if tcpSame r l then [identityComment c.Name] else []) ++
    (if execSame r l then [identityComment c.Name] else [])
  | _, _ => []

/-- One iteration of the container loop raises `probesAreIdentical`. -/
def reportsIdentical (c : Container) : Bool :=
  match c.ReadinessProbe, c.LivenessProbe with
  | some r, some l => httpSame r l || tcpSame r l || execSame r l
  | _, _ => false

/-- The comments one container adds in `scoreContainerProbes`, given the targeted flag. -/
def probesComments (targeted : Bool) (c : Container) : List TestScoreComment :=
  (if c.ReadinessProbe.isNone && targeted then [missingReadinessComment c.Name] else []) ++
  (if c.LivenessProbe.isNone then [missingLivenessComment c.Name] else []) ++
  identityComments c

/-- The two probes are equal under some mechanism, in the words of the specification:
both HTTP with equal path and equal resolved port number, or both TCP with equal port, or
both exec with command lists of the same length that are equal element by element. -/
def SameProbe (r l : Probe) : Prop :=
  (∃ rh lh, r.HTTPGet = some rh ∧ l.HTTPGet = some lh ∧
    rh.Path = lh.Path ∧ rh.Port.IntValue = lh.Port.IntValue) ∨
  (∃ rt lt, r.TCPSocket = some rt ∧ l.TCPSocket = some lt ∧ rt.Port = lt.Port) ∨
  (∃ re le, r.Exec = some re ∧ l.Exec = some le ∧
    re.Command.length = le.Command.length ∧
    ∀ i, i < re.Command.length → re.Command.get? i = le.Command.get? i)

/-- The container has a readiness and a liveness probe that are equal under some
mechanism. -/
def HasIdenticalProbes (c : Container) : Prop :=
  ∃ r l, c.ReadinessProbe = some r ∧ c.LivenessProbe = some l ∧ SameProbe r l

/-- The selector, read as a subset test in the words of the specification: every one of
its key/value entries occurs in the labels with an identical value. -/
def SelectorSubset (selector labels : List (String × String)) : Prop :=
  ∀ e ∈ selector, labels.lookup e.1 = some e.2

/-- Some selector entry of some service occurs in the pod's labels with the same value. -/
def SomeEntryMatches (allServices : List Service) (podTemplate : PodTemplateSpec) : Prop :=
  ∃ s ∈ allServices, ∃ e ∈ s.Spec.Selector, podTemplate.Labels.lookup e.1 = some e.2

/-- Some container of the pod has a liveness probe. -/
def SomeLiveness (p : PodTemplateSpec) : Prop :=
  ∃ c ∈ p.Spec.InitContainers ++ p.Spec.Containers, c.LivenessProbe ≠ none

/-- Some container of the pod has a readiness probe. -/
def SomeReadiness (p : PodTemplateSpec) : Prop :=
  ∃ c ∈ p.Spec.InitContainers ++ p.Spec.Containers, c.ReadinessProbe ≠ none

/-- Some container of the pod has identical probes. -/
def SomeIdentical (p : PodTemplateSpec) : Prop :=
  ∃ c ∈ p.Spec.InitContainers ++ p.Spec.Containers, HasIdenticalProbes c

/-- The three detection mechanisms of a probe. -/
inductive Mechanism where
  | http
  | tcp
  | exec
deriving DecidableEq, Repr

/-- The mechanism of a probe that uses exactly one; `none` for a probe with no action or
with more than one. -/
def Probe.mechanism? (p : Probe) : Option Mechanism :=
  match p.HTTPGet, p.TCPSocket, p.Exec with
  | some _, none, none => some Mechanism.http
  | none, some _, none => some Mechanism.tcp
  | none, none, some _ => some Mechanism.exec
  | _, _, _ => none

/-- The container with its readiness and liveness probes exchanged. -/
def swapProbes (c : Container) : Container :=
  { c with ReadinessProbe := c.LivenessProbe, LivenessProbe := c.ReadinessProbe }

/-- A container named `web` with no probe, no resources and no security context. -/
def bareContainer : Container :=
  ⟨"web", "app:1.0", "Always", ⟨[], []⟩, none, none, none⟩

/-- A pod labelled `{app: foo, tier: web}` whose one container has no probe. -/
def fooWebPod : PodTemplateSpec :=
  ⟨[("app", "foo"), ("tier", "web")], ⟨[], [bareContainer]⟩⟩

/-- A service with selector `{app: foo}`. -/
def fooService : Service := ⟨⟨[("app", "foo")]⟩⟩

/-- A service with selector `{app: foo, tier: api}`. -/
def fooApiService : Service := ⟨⟨[("app", "foo"), ("tier", "api")]⟩⟩

/-- A service with an empty selector. -/
def emptySelectorService : Service := ⟨⟨[]⟩⟩

/-- A container named `web` with CPU and memory limits and no requests. -/
def limitedContainer : Container :=
  { bareContainer with Resources := ⟨[("cpu", ⟨1⟩), ("memory", ⟨512⟩)], []⟩ }

/-- A container named `web` with an HTTP readiness probe and no liveness probe. -/
def readyContainer : Container :=
  { bareContainer with
    ReadinessProbe := some ⟨none, some ⟨"/ready", ⟨IntstrType.Int, 8080, ""⟩, "", ""⟩, none⟩ }

/-- A container named `live` with an HTTP liveness probe and no readiness probe. -/
def liveContainer : Container :=
  { bareContainer with
    Name := "live"
    LivenessProbe := some ⟨none, some ⟨"/live", ⟨IntstrType.Int, 8080, ""⟩, "", ""⟩, none⟩ }

/-- A container named `web` whose readiness and liveness probes are HTTP probes of path
`/healthz` with the string ports `rport` and `lport`. -/
def stringPortContainer (rport lport : String) : Container :=
  { bareContainer with
    ReadinessProbe := some ⟨none, some ⟨"/healthz", ⟨IntstrType.String, 0, rport⟩, "", ""⟩, none⟩
    LivenessProbe := some ⟨none, some ⟨"/healthz", ⟨IntstrType.String, 0, lport⟩, "", ""⟩, none⟩ }

/-! ## Loop lemmas -/

/-! ### Resource limits -/

theorem limitsStep_eq (st : LimitsState) (c : Container) :
    limitsStep st c =
      ⟨{ st.score with Comments := st.score.Comments ++ limitsComments c },
        st.hasMissingLimit || missingLimit c, st.hasMissingRequest || missingRequest c⟩ := by
  unfold limitsStep limitsComments missingLimit missingRequest
  cases h1 : c.Resources.Limits.Cpu.IsZero <;> cases h2 : c.Resources.Limits.Memory.IsZero <;>
    cases h3 : c.Resources.Requests.Cpu.IsZero <;>
    cases h4 : c.Resources.Requests.Memory.IsZero <;>
    simp [TestScore.AddComment]

theorem limits_foldl (cs : List Container) (st : LimitsState) :
    cs.foldl limitsStep st =
      ⟨{ st.score with Comments := st.score.Comments ++ cs.flatMap limitsComments },
        st.hasMissingLimit || cs.any missingLimit,
        st.hasMissingRequest || cs.any missingRequest⟩ := by
  induction cs generalizing st with
  | nil => simp
  | cons c cs ih =>
    rw [List.foldl_cons, ih, limitsStep_eq]
    simp [List.flatMap_cons, Bool.or_assoc]

theorem cpu_isZero_iff (rl : ResourceList) : rl.Cpu.IsZero = true ↔ ZeroOrAbsent rl "cpu" := by
  unfold ResourceList.Cpu Quantity.IsZero ZeroOrAbsent
  cases h : List.lookup "cpu" rl <;> simp

theorem memory_isZero_iff (rl : ResourceList) :
    rl.Memory.IsZero = true ↔ ZeroOrAbsent rl "memory" := by
  unfold ResourceList.Memory Quantity.IsZero ZeroOrAbsent
  cases h : List.lookup "memory" rl <;> simp

theorem missingLimit_iff (c : Container) :
    missingLimit c = true ↔
      ZeroOrAbsent c.Resources.Limits "cpu" ∨ ZeroOrAbsent c.Resources.Limits "memory" := by
  simp [missingLimit, cpu_isZero_iff, memory_isZero_iff]

theorem missingRequest_iff (c : Container) :
    missingRequest c = true ↔
      ZeroOrAbsent c.Resources.Requests "cpu" ∨ ZeroOrAbsent c.Resources.Requests "memory" := by
  simp [missingRequest, cpu_isZero_iff, memory_isZero_iff]

/-- The grade of `scoreContainerLimits` in terms of the two flags over all containers. -/
theorem limits_grade_eq (p : PodTemplateSpec) :
    (scoreContainerLimits p).Grade =
      if (allContainers p).length = 0 then 0
      else if (allContainers p).any missingLimit then 0
      else if (allContainers p).any missingRequest then 5 else 10 := by
  unfold scoreContainerLimits
  simp only [limits_foldl, Bool.false_or]
  split_ifs <;> simp [TestScore.AddComment]

/-! ### Image tag -/

theorem splitChars_of_not_mem (sep : Char) (cs : List Char) (h : sep ∉ cs) :
    splitChars sep cs = [cs] := by
  induction cs with
  | nil => rfl
  | cons c cs ih =>
    have hc : c ≠ sep := fun e => h (by simp [e])
    have hcs : sep ∉ cs := fun e => h (by simp [e])
    simp [splitChars, hc, ih hcs]

theorem splitChars_append (sep : Char) (a b : List Char) :
    ∃ seg pre, splitChars sep (a ++ sep :: b) = (seg :: pre) ++ splitChars sep b := by
  induction a with
  | nil => exact ⟨[], [], by simp [splitChars]⟩
  | cons c a ih =>
    obtain ⟨seg, pre, hpre⟩ := ih
    by_cases hc : c = sep
    · exact ⟨[], seg :: pre, by simp [splitChars, hc, ← hpre]⟩
    · exact ⟨c :: seg, pre, by simp [splitChars, hc, hpre]⟩

/-- Without a colon the whole reference is the tag. -/
theorem imageVersion_of_no_colon (s : String) (h : ':' ∉ s.data) : imageVersion s = s := by
  simp [imageVersion, splitChars_of_not_mem ':' s.data h]

/-- With a colon the tag is what follows the last one. -/
theorem imageVersion_after_last_colon (a b : List Char) (h : ':' ∉ b) :
    imageVersion (String.mk (a ++ ':' :: b)) = String.mk b := by
  obtain ⟨seg, pre, hpre⟩ := splitChars_append ':' a b
  rw [splitChars_of_not_mem ':' b h] at hpre
  have hlast : (seg :: pre ++ [b]).getLastD [] = b := List.getLastD_concat _ _ _
  simp only [imageVersion, hpre, hlast]

theorem imageTagStep_eq (st : ImageTagState) (c : Container) :
    imageTagStep st c =
      ⟨{ st.score with
          Comments := st.score.Comments ++ ([c].filter hasLatestTag).map latestTagComment },
        st.hasTagLatest || hasLatestTag c⟩ := by
  unfold imageTagStep hasLatestTag latestTagComment
  by_cases h : imageVersion c.Image = "latest" <;> simp [h, TestScore.AddComment, List.filter]

theorem imageTag_foldl (cs : List Container) (st : ImageTagState) :
    cs.foldl imageTagStep st =
      ⟨{ st.score with
          Comments := st.score.Comments ++ (cs.filter hasLatestTag).map latestTagComment },
        st.hasTagLatest || cs.any hasLatestTag⟩ := by
  induction cs generalizing st with
  | nil => simp
  | cons c cs ih =>
    rw [List.foldl_cons, ih, imageTagStep_eq]
    cases h : hasLatestTag c <;> simp [List.filter, h, Bool.or_assoc]

theorem imageTag_comments (p : PodTemplateSpec) :
    (scoreContainerImageTag p).Comments =
      ((allContainers p).filter hasLatestTag).map latestTagComment := by
  unfold scoreContainerImageTag
  simp only [imageTag_foldl]
  split_ifs <;> simp [TestScore.zero]

/-! ### Pull policy -/

theorem pullPolicyStep_eq (st : PullPolicyState) (c : Container) :
    pullPolicyStep st c =
      ⟨{ st.score with
          Comments := st.score.Comments ++ ([c].filter notPullAlways).map pullPolicyComment },
        st.hasNonAlways || notPullAlways c⟩ := by
  unfold pullPolicyStep notPullAlways pullPolicyComment
  by_cases h : c.ImagePullPolicy = PullAlways <;> simp [h, TestScore.AddComment, List.filter]

theorem pullPolicy_foldl (cs : List Container) (st : PullPolicyState) :
    cs.foldl pullPolicyStep st =
      ⟨{ st.score with
          Comments := st.score.Comments ++ (cs.filter notPullAlways).map pullPolicyComment },
        st.hasNonAlways || cs.any notPullAlways⟩ := by
  induction cs generalizing st with
  | nil => simp
  | cons c cs ih =>
    rw [List.foldl_cons, ih, pullPolicyStep_eq]
    cases h : notPullAlways c <;> simp [List.filter, h, Bool.or_assoc]

theorem pullPolicy_comments (p : PodTemplateSpec) :
    (scoreContainerImagePullPolicy p).Comments =
      ((allContainers p).filter notPullAlways).map pullPolicyComment := by
  unfold scoreContainerImagePullPolicy
  simp only [pullPolicy_foldl]
  split_ifs <;> simp [TestScore.zero]

/-! ### Security context -/

theorem securityStep_eq (st : SecurityState) (c : Container) :
    securityStep st c =
      ⟨{ st.score with Comments := st.score.Comments ++ securityComments c },
        st.hasPrivileged || secFlag isPrivileged c,
        st.hasWritableRootFS || secFlag isWritableRootFS c,
        st.hasLowUserID || secFlag isLowUserID c,
        st.hasLowGroupID || secFlag isLowGroupID c⟩ := by
  unfold securityStep securityComments secFlag
  cases hs : c.SecurityContext with
  | none => simp
  | some sec =>
    cases h1 : isPrivileged sec <;> cases h2 : isWritableRootFS sec <;>
      cases h3 : isLowUserID sec <;> cases h4 : isLowGroupID sec <;>
      simp [TestScore.AddComment, h1, h2, h3, h4]

theorem security_foldl (cs : List Container) (st : SecurityState) :
    cs.foldl securityStep st =
      ⟨{ st.score with Comments := st.score.Comments ++ cs.flatMap securityComments },
        st.hasPrivileged || cs.any (secFlag isPrivileged),
        st.hasWritableRootFS || cs.any (secFlag isWritableRootFS),
        st.hasLowUserID || cs.any (secFlag isLowUserID),
        st.hasLowGroupID || cs.any (secFlag isLowGroupID)⟩ := by
  induction cs generalizing st with
  | nil => simp
  | cons c cs ih =>
    rw [List.foldl_cons, ih, securityStep_eq]
    simp [List.flatMap_cons, Bool.or_assoc]

theorem flagged_iff (sec : SecurityContext) :
    (isPrivileged sec || isWritableRootFS sec || isLowUserID sec || isLowGroupID sec) = true ↔
      Flagged sec := by
  unfold isPrivileged isWritableRootFS isLowUserID isLowGroupID Flagged
  cases sec.Privileged <;> cases sec.ReadOnlyRootFilesystem <;> cases sec.RunAsUser <;>
    cases sec.RunAsGroup <;> simp [or_assoc]

/-! ### Probes -/

theorem selector_foldl (labels : List (String × String)) (sel : List (String × String))
    (b : Bool) :
    sel.foldl
        (fun targeted entry =>
          match labels.lookup entry.1 with
          | some podLabelVal => if podLabelVal = entry.2 then true else targeted
          | none => targeted)
        b =
      (b || sel.any (fun e => decide (labels.lookup e.1 = some e.2))) := by
  induction sel generalizing b with
  | nil => simp
  | cons e sel ih =>
    rw [List.foldl_cons, ih]
    cases h : labels.lookup e.1 with
    | none => simp [h]
    | some v =>
      by_cases hv : v = e.2
      · simp [h, hv]
      · simp [h, hv]

theorem services_foldl (labels : List (String × String)) (svcs : List Service) (b : Bool) :
    svcs.foldl
        (fun targeted service =>
          service.Spec.Selector.foldl
            (fun targeted entry =>
              match labels.lookup entry.1 with
              | some podLabelVal => if podLabelVal = entry.2 then true else targeted
              | none => targeted)
            targeted)
        b =
      (b || svcs.any (fun s =>
        s.Spec.Selector.any (fun e => decide (labels.lookup e.1 = some e.2)))) := by
  induction svcs generalizing b with
  | nil => simp
  | cons s svcs ih =>
    rw [List.foldl_cons, ih, selector_foldl]
    simp [Bool.or_assoc]

/-- The targeted flag is raised exactly when some selector entry matches a label. -/
theorem isTargetedByService_iff (svcs : List Service) (p : PodTemplateSpec) :
    isTargetedByService svcs p = true ↔ SomeEntryMatches svcs p := by
  unfold isTargetedByService SomeEntryMatches
  rw [services_foldl]
  simp

theorem isTargetedByService_eq_false_iff (svcs : List Service) (p : PodTemplateSpec) :
    isTargetedByService svcs p = false ↔ ¬ SomeEntryMatches svcs p := by
  rw [← isTargetedByService_iff]
  simp

theorem execHasDifferent_eq_false (l : List String) (rc : List String) (i : Nat) :
    execHasDifferent l i rc = false ↔ ∀ j, j < rc.length → rc.get? j = l.get? (i + j) := by
  induction rc generalizing i with
  | nil => simp [execHasDifferent]
  | cons v rest ih =>
    unfold execHasDifferent
    by_cases hv : l.get? i = some v
    · simp only [hv, ne_eq, not_true_eq_false, if_false, ih]
      constructor
      · intro h j hj
        cases j with
        | zero => simpa using hv.symm
        | succ j =>
          have := h j (by simpa using hj)
          simpa [Nat.add_assoc, Nat.add_comm 1 j] using this
      · intro h j hj
        have := h (j + 1) (by simpa using hj)
        simpa [Nat.add_assoc, Nat.add_comm 1 j] using this
    · simp only [ne_eq, hv, not_false_eq_true, if_true]
      constructor
      · intro h
        cases h
      · intro h
        have := h 0 (by simp)
        exact absurd (by simpa using this.symm) hv

theorem httpStep_eq (st : ProbesState) (n : String) (r l : Probe) :
    httpStep st n r l = if httpSame r l then markIdentical st n else st := by
  unfold httpStep httpSame
  cases r.HTTPGet <;> cases l.HTTPGet <;> simp

theorem tcpStep_eq (st : ProbesState) (n : String) (r l : Probe) :
    tcpStep st n r l = if tcpSame r l then markIdentical st n else st := by
  unfold tcpStep tcpSame
  cases r.TCPSocket <;> cases l.TCPSocket <;> simp

theorem execStep_eq (st : ProbesState) (n : String) (r l : Probe) :
    execStep st n r l = if execSame r l then markIdentical st n else st := by
  unfold execStep execSame
  cases hr : r.Exec with
  | none => simp
  | some re =>
    cases hl : l.Exec with
    | none => simp
    | some le =>
      by_cases hlen : re.Command.length = le.Command.length
      · cases hd : execHasDifferent le.Command 0 re.Command <;> simp [hlen, hd]
      · simp [hlen]

theorem probesStep_eq (targeted : Bool) (st : ProbesState) (c : Container) :
    probesStep targeted st c =
      ⟨{ st.score with Comments := st.score.Comments ++ probesComments targeted c },
        st.hasReadinessProbe || c.ReadinessProbe.isSome,
        st.hasLivenessProbe || c.LivenessProbe.isSome,
        st.probesAreIdentical || reportsIdentical c⟩ := by
  unfold probesStep probesComments identityComments reportsIdentical
  cases hr : c.ReadinessProbe with
  | none =>
    cases hl : c.LivenessProbe <;> cases targeted <;>
      simp [TestScore.AddComment, missingReadinessComment, missingLivenessComment]
  | some r =>
    cases hl : c.LivenessProbe with
    | none =>
      cases targeted <;>
        simp [TestScore.AddComment, missingReadinessComment, missingLivenessComment]
    | some l =>
      simp only [httpStep_eq, tcpStep_eq, execStep_eq]
      cases httpSame r l <;> cases tcpSame r l <;> cases execSame r l <;>
        simp [markIdentical, TestScore.AddComment, identityComment]

theorem probes_foldl (targeted : Bool) (cs : List Container) (st : ProbesState) :
    cs.foldl (probesStep targeted) st =
      ⟨{ st.score with Comments := st.score.Comments ++ cs.flatMap (probesComments targeted) },
        st.hasReadinessProbe || cs.any (fun c => c.ReadinessProbe.isSome),
        st.hasLivenessProbe || cs.any (fun c => c.LivenessProbe.isSome),
        st.probesAreIdentical || cs.any reportsIdentical⟩ := by
  induction cs generalizing st with
  | nil => simp
  | cons c cs ih =>
    rw [List.foldl_cons, ih, probesStep_eq]
    simp [List.flatMap_cons, Bool.or_assoc]

/-- The loop state of `scoreContainerProbes` in closed form. -/
theorem probesLoop_eq (svcs : List Service) (p : PodTemplateSpec) :
    probesLoop svcs p =
      ⟨⟨"Pod Probes", 0,
          (allContainers p).flatMap (probesComments (isTargetedByService svcs p))⟩,
        (allContainers p).any (fun c => c.ReadinessProbe.isSome),
        (allContainers p).any (fun c => c.LivenessProbe.isSome),
        (allContainers p).any reportsIdentical⟩ := by
  unfold probesLoop
  rw [probes_foldl]
  simp [TestScore.zero]

theorem httpSame_iff (r l : Probe) :
    httpSame r l = true ↔
      ∃ rh lh, r.HTTPGet = some rh ∧ l.HTTPGet = some lh ∧
        rh.Path = lh.Path ∧ rh.Port.IntValue = lh.Port.IntValue := by
  unfold httpSame
  cases r.HTTPGet <;> cases l.HTTPGet <;> simp

theorem tcpSame_iff (r l : Probe) :
    tcpSame r l = true ↔
      ∃ rt lt, r.TCPSocket = some rt ∧ l.TCPSocket = some lt ∧ rt.Port = lt.Port := by
  unfold tcpSame
  cases r.TCPSocket <;> cases l.TCPSocket <;> simp

theorem execSame_iff (r l : Probe) :
    execSame r l = true ↔
      ∃ re le, r.Exec = some re ∧ l.Exec = some le ∧
        re.Command.length = le.Command.length ∧
        ∀ i, i < re.Command.length → re.Command.get? i = le.Command.get? i := by
  unfold execSame
  cases r.Exec with
  | none => simp
  | some re =>
    cases l.Exec with
    | none => simp
    | some le =>
      have h := execHasDifferent_eq_false le.Command re.Command 0
      simp only [Nat.zero_add] at h
      simp only [Bool.and_eq_true, decide_eq_true_eq, Bool.not_eq_true', h, Option.some.injEq,
        exists_and_left, exists_eq_left']

theorem reportsIdentical_iff (c : Container) :
    reportsIdentical c = true ↔ HasIdenticalProbes c := by
  unfold reportsIdentical HasIdenticalProbes SameProbe
  cases c.ReadinessProbe with
  | none => simp
  | some r =>
    cases c.LivenessProbe with
    | none => simp
    | some l =>
      simp only [Bool.or_eq_true, httpSame_iff, tcpSame_iff, execSame_iff, Option.some.injEq,
        exists_and_left, exists_eq_left', or_assoc]

/-- The grade of `scoreContainerProbes` is the ladder at the four pod-wide flags. -/
theorem probes_grade_eq (svcs : List Service) (p : PodTemplateSpec) :
    (scoreContainerProbes svcs p).Grade =
      probesGrade ((allContainers p).any (fun c => c.LivenessProbe.isSome))
        ((allContainers p).any (fun c => c.ReadinessProbe.isSome))
        (isTargetedByService svcs p) ((allContainers p).any reportsIdentical) := by
  unfold scoreContainerProbes
  simp only [probesLoop_eq]

/-- The comments of `scoreContainerProbes`, container by container. -/
theorem probes_comments_eq (svcs : List Service) (p : PodTemplateSpec) :
    (scoreContainerProbes svcs p).Comments =
      (allContainers p).flatMap (probesComments (isTargetedByService svcs p)) := by
  unfold scoreContainerProbes
  simp only [probesLoop_eq]

theorem someLiveness_iff (p : PodTemplateSpec) :
    (allContainers p).any (fun c => c.LivenessProbe.isSome) = true ↔ SomeLiveness p := by
  simp only [List.any_eq_true, allContainers, SomeLiveness, Option.isSome_iff_ne_none]

theorem someReadiness_iff (p : PodTemplateSpec) :
    (allContainers p).any (fun c => c.ReadinessProbe.isSome) = true ↔ SomeReadiness p := by
  simp only [List.any_eq_true, allContainers, SomeReadiness, Option.isSome_iff_ne_none]

theorem someIdentical_iff (p : PodTemplateSpec) :
    (allContainers p).any reportsIdentical = true ↔ SomeIdentical p := by
  simp only [List.any_eq_true, allContainers, SomeIdentical, reportsIdentical_iff]

theorem mem_identityComments (c : Container) (cm : TestScoreComment) :
    cm ∈ identityComments c ↔ cm = identityComment c.Name ∧ reportsIdentical c = true := by
  unfold identityComments reportsIdentical
  cases c.ReadinessProbe with
  | none => simp
  | some r =>
    cases c.LivenessProbe with
    | none => simp
    | some l =>
      cases h1 : httpSame r l <;> cases h2 : tcpSame r l <;> cases h3 : execSame r l <;>
        simp [h1, h2, h3]

theorem mem_probesComments_identity (targeted : Bool) (c : Container) (n : String) :
    identityComment n ∈ probesComments targeted c ↔ c.Name = n ∧ reportsIdentical c = true := by
  unfold probesComments
  simp only [List.mem_append, mem_identityComments]
  have h1 : identityComment n ∉
      (if c.ReadinessProbe.isNone && targeted then [missingReadinessComment c.Name] else []) := by
    split_ifs <;> simp [identityComment, missingReadinessComment]
  have h2 : identityComment n ∉
      (if c.LivenessProbe.isNone then [missingLivenessComment c.Name] else []) := by
    split_ifs <;> simp [identityComment, missingLivenessComment]
  constructor
  · rintro ((h | h) | h)
    · exact absurd h h1
    · exact absurd h h2
    · refine ⟨?_, h.2⟩
      have := congrArg TestScoreComment.Path h.1
      simpa [identityComment] using this.symm
  · rintro ⟨hn, hi⟩
    exact Or.inr ⟨by rw [hn], hi⟩

theorem summary_of_mem_probesComments_false (c : Container) (cm : TestScoreComment)
    (h : cm ∈ probesComments false c) :
    cm.Summary ≠ "Container is missing a readinessProbe" := by
  unfold probesComments at h
  simp only [Bool.and_false, Bool.false_eq_true, if_false, List.nil_append, List.mem_append,
    mem_identityComments] at h
  rcases h with h | h
  · split_ifs at h
    · simp only [List.mem_singleton] at h
      rw [h]
      simp [missingLivenessComment]
    · cases h
  · rw [h.1]
    simp [identityComment]

theorem httpSame_comm (r l : Probe) : httpSame l r = httpSame r l := by
  rw [Bool.eq_iff_iff, httpSame_iff, httpSame_iff]
  constructor <;> rintro ⟨a, b, ha, hb, hp, hq⟩ <;> exact ⟨b, a, hb, ha, hp.symm, hq.symm⟩

theorem tcpSame_comm (r l : Probe) : tcpSame l r = tcpSame r l := by
  rw [Bool.eq_iff_iff, tcpSame_iff, tcpSame_iff]
  constructor <;> rintro ⟨a, b, ha, hb, hp⟩ <;> exact ⟨b, a, hb, ha, hp.symm⟩

theorem execSame_comm (r l : Probe) : execSame l r = execSame r l := by
  rw [Bool.eq_iff_iff, execSame_iff, execSame_iff]
  constructor <;> rintro ⟨a, b, ha, hb, hlen, hall⟩ <;>
    exact ⟨b, a, hb, ha, hlen.symm, fun i hi => (hall i (hlen ▸ hi)).symm⟩

/-- Probes of different single mechanisms pass none of the three comparisons. -/
theorem same_false_of_mechanism_ne (r l : Probe) (mr ml : Mechanism)
    (hr : r.mechanism? = some mr) (hl : l.mechanism? = some ml) (hne : mr ≠ ml) :
    httpSame r l = false ∧ tcpSame r l = false ∧ execSame r l = false := by
  obtain ⟨re, rh, rt⟩ := r
  obtain ⟨le, lh, lt⟩ := l
  cases re <;> cases rh <;> cases rt <;> cases le <;> cases lh <;> cases lt <;>
    simp_all [Probe.mechanism?, httpSame, tcpSame, execSame]

/-! ### Comment lists in closed form -/

/-- The comments of `scoreContainerLimits`, container by container, then the pod-level
comment when there is no container. -/
theorem limits_comments (p : PodTemplateSpec) :
    (scoreContainerLimits p).Comments =
      (allContainers p).flatMap limitsComments ++
        (if (allContainers p).length = 0 then [⟨"", "No containers defined", ""⟩] else []) := by
  unfold scoreContainerLimits
  simp only [limits_foldl]
  split_ifs <;> simp [TestScore.zero, TestScore.AddComment]

/-- The comments of `scoreContainerSecurityContext`, container by container. -/
theorem security_comments (p : PodTemplateSpec) :
    (scoreContainerSecurityContext p).Comments =
      (allContainers p).flatMap securityComments := by
  unfold scoreContainerSecurityContext
  simp only [security_foldl]
  split_ifs <;> simp [TestScore.zero]

/-- The grade of `scoreContainerSecurityContext` in terms of the four flags. -/
theorem security_grade_eq (p : PodTemplateSpec) :
    (scoreContainerSecurityContext p).Grade =
      if ((allContainers p).any (secFlag isPrivileged) ||
        (allContainers p).any (secFlag isWritableRootFS) ||
        (allContainers p).any (secFlag isLowUserID) ||
        (allContainers p).any (secFlag isLowGroupID)) = true then 0 else 10 := by
  unfold scoreContainerSecurityContext
  simp only [security_foldl, Bool.false_or]
  split_ifs <;> rfl

/-- The grade of `scoreContainerImageTag` in terms of the flag. -/
theorem imageTag_grade_eq (p : PodTemplateSpec) :
    (scoreContainerImageTag p).Grade =
      if (allContainers p).any hasLatestTag = true then 0 else 10 := by
  unfold scoreContainerImageTag
  simp only [imageTag_foldl, Bool.false_or]
  split_ifs <;> rfl

/-- The grade of `scoreContainerImagePullPolicy` in terms of the flag. -/
theorem pullPolicy_grade_eq (p : PodTemplateSpec) :
    (scoreContainerImagePullPolicy p).Grade =
      if (allContainers p).any notPullAlways = true then 0 else 10 := by
  unfold scoreContainerImagePullPolicy
  simp only [pullPolicy_foldl, Bool.false_or]
  split_ifs <;> rfl

/-- Counting in a concatenation of per-container lists. -/
theorem countP_flatMap_eq {α β : Type} (q : β → Bool) (f : α → List β) (g : α → Bool)
    (h : ∀ a, (f a).countP q = if g a then 1 else 0) (l : List α) :
    (l.flatMap f).countP q = l.countP g := by
  induction l with
  | nil => rfl
  | cons a l ih =>
    rw [List.flatMap_cons, List.countP_append, ih, h a, List.countP_cons, Nat.add_comm]

theorem countP_identityComments (c : Container) (q : TestScoreComment → Bool)
    (hq : ∀ n, q (identityComment n) = false) : (identityComments c).countP q = 0 := by
  rw [List.countP_eq_zero]
  intro cm hcm
  rw [((mem_identityComments c cm).mp hcm).1, hq]
  simp

theorem countP_missingLiveness (targeted : Bool) (c : Container) :
    (probesComments targeted c).countP
        (fun cm => decide (cm.Summary = "Container is missing a livenessProbe")) =
      if c.LivenessProbe.isNone then 1 else 0 := by
  unfold probesComments
  rw [List.countP_append, List.countP_append,
    countP_identityComments c _ (by intro n; simp [identityComment])]
  cases c.ReadinessProbe <;> cases c.LivenessProbe <;> cases targeted <;>
    simp [missingReadinessComment, missingLivenessComment]

theorem countP_missingReadiness (targeted : Bool) (c : Container) :
    (probesComments targeted c).countP
        (fun cm => decide (cm.Summary = "Container is missing a readinessProbe")) =
      if c.ReadinessProbe.isNone && targeted then 1 else 0 := by
  unfold probesComments
  rw [List.countP_append, List.countP_append,
    countP_identityComments c _ (by intro n; simp [identityComment])]
  cases c.ReadinessProbe <;> cases c.LivenessProbe <;> cases targeted <;>
    simp [missingReadinessComment, missingLivenessComment]

/-! ### Subjects of comments and single-mechanism probes -/

theorem path_of_mem_limitsComments (c : Container) (cm : TestScoreComment)
    (h : cm ∈ limitsComments c) : cm.Path = c.Name := by
  unfold limitsComments at h
  simp only [List.mem_append] at h
  rcases h with ((h | h) | h) | h <;> split_ifs at h <;>
    first
    | (rw [List.mem_singleton] at h; rw [h])
    | cases h

theorem path_of_mem_securityComments (c : Container) (cm : TestScoreComment)
    (h : cm ∈ securityComments c) : cm.Path = c.Name := by
  unfold securityComments at h
  simp only [List.mem_append] at h
  rcases h with ((h | h) | h) | h <;> split_ifs at h <;>
    first
    | (rw [List.mem_singleton] at h; rw [h])
    | cases h

theorem path_of_mem_probesComments (targeted : Bool) (c : Container) (cm : TestScoreComment)
    (h : cm ∈ probesComments targeted c) : cm.Path = c.Name := by
  unfold probesComments at h
  simp only [List.mem_append, mem_identityComments] at h
  rcases h with (h | h) | h
  · split_ifs at h
    · rw [List.mem_singleton] at h
      rw [h]
      rfl
    · cases h
  · split_ifs at h
    · rw [List.mem_singleton] at h
      rw [h]
      rfl
    · cases h
  · rw [h.1]
    rfl

/-- Equal probes of one and the same single mechanism pass exactly one comparison. -/
theorem identityComments_of_same_mechanism (c : Container) (r l : Probe) (m : Mechanism)
    (hr : c.ReadinessProbe = some r) (hl : c.LivenessProbe = some l)
    (hmr : r.mechanism? = some m) (hml : l.mechanism? = some m) (hs : SameProbe r l) :
    identityComments c = [identityComment c.Name] ∧ reportsIdentical c = true := by
  have h := (reportsIdentical_iff c).mpr ⟨r, l, hr, hl, hs⟩
  refine ⟨?_, h⟩
  unfold reportsIdentical at h
  unfold identityComments
  rw [hr, hl] at h
  rw [hr, hl]
  simp only [Bool.or_eq_true] at h
  have key : (httpSame r l = true ∧ tcpSame r l = false ∧ execSame r l = false) ∨
      (httpSame r l = false ∧ tcpSame r l = true ∧ execSame r l = false) ∨
      (httpSame r l = false ∧ tcpSame r l = false ∧ execSame r l = true) := by
    clear hr hl hs
    obtain ⟨re, rh, rt⟩ := r
    obtain ⟨le, lh, lt⟩ := l
    cases re <;> cases rh <;> cases rt <;> cases le <;> cases lh <;> cases lt <;>
      simp_all [Probe.mechanism?, httpSame, tcpSame, execSame]
  rcases key with ⟨h1, h2, h3⟩ | ⟨h1, h2, h3⟩ | ⟨h1, h2, h3⟩ <;> simp [h1, h2, h3]

/-- The targeted flag reads the pod template's labels only. -/
theorem isTargetedByService_congr (svcs : List Service) (p q : PodTemplateSpec)
    (h : p.Labels = q.Labels) : isTargetedByService svcs p = isTargetedByService svcs q := by
  unfold isTargetedByService
  rw [h]

/-! ### Enumeration order and empty comment lists -/

/-- The check `scoreContainerProbes` reads the service list through the targeted flag
only. -/
theorem scoreContainerProbes_congr (svcs svcs' : List Service) (p : PodTemplateSpec)
    (h : isTargetedByService svcs p = isTargetedByService svcs' p) :
    scoreContainerProbes svcs p = scoreContainerProbes svcs' p := by
  unfold scoreContainerProbes probesLoop
  rw [h]

theorem bool_eq_of_iff (a b : Bool) (h : a = true ↔ b = true) : a = b := by
  cases a <;> cases b <;> simp_all

theorem someEntryMatches_perm (svcs svcs' : List Service) (p : PodTemplateSpec)
    (h : svcs.Perm svcs') : SomeEntryMatches svcs p ↔ SomeEntryMatches svcs' p := by
  unfold SomeEntryMatches
  constructor
  · rintro ⟨s, hs, e, he, hm⟩
    exact ⟨s, h.mem_iff.mp hs, e, he, hm⟩
  · rintro ⟨s, hs, e, he, hm⟩
    exact ⟨s, h.mem_iff.mpr hs, e, he, hm⟩

theorem someEntryMatches_reorder (svcs svcs' : List Service) (p : PodTemplateSpec)
    (h : List.Forall₂ (fun s s' : Service => s.Spec.Selector.Perm s'.Spec.Selector) svcs svcs') :
    SomeEntryMatches svcs p ↔ SomeEntryMatches svcs' p := by
  unfold SomeEntryMatches
  induction h with
  | nil => simp
  | cons hs _ ih =>
    simp only [List.mem_cons, exists_eq_or_imp, ih]
    constructor
    · rintro (⟨e, he, hm⟩ | h)
      · exact Or.inl ⟨e, hs.mem_iff.mp he, hm⟩
      · exact Or.inr h
    · rintro (⟨e, he, hm⟩ | h)
      · exact Or.inl ⟨e, hs.mem_iff.mpr he, hm⟩
      · exact Or.inr h

theorem limitsComments_eq_nil_iff (c : Container) :
    limitsComments c = [] ↔ missingLimit c = false ∧ missingRequest c = false := by
  unfold limitsComments missingLimit missingRequest
  cases c.Resources.Limits.Cpu.IsZero <;> cases c.Resources.Limits.Memory.IsZero <;>
    cases c.Resources.Requests.Cpu.IsZero <;> cases c.Resources.Requests.Memory.IsZero <;> simp

theorem securityComments_eq_nil_iff (c : Container) :
    securityComments c = [] ↔
      secFlag isPrivileged c = false ∧ secFlag isWritableRootFS c = false ∧
        secFlag isLowUserID c = false ∧ secFlag isLowGroupID c = false := by
  unfold securityComments
  cases secFlag isPrivileged c <;> cases secFlag isWritableRootFS c <;>
    cases secFlag isLowUserID c <;> cases secFlag isLowGroupID c <;> simp

/-! ## Theorems -/

/-- C1: `scoreContainerLimits` grades by a strict priority ladder over
`cs = init containers ++ regular containers`: grade 0 if `cs` is empty; else 0 if some
container has a zero or absent CPU limit or memory limit, whatever the requests are; else 5
if some container has a zero or absent CPU request or memory request; else 10. -/
theorem scoreContainerLimits_grade_ladder (p : PodTemplateSpec) :
    (p.Spec.InitContainers ++ p.Spec.Containers = [] → (scoreContainerLimits p).Grade = 0) ∧
    (p.Spec.InitContainers ++ p.Spec.Containers ≠ [] →
      (∃ c ∈ p.Spec.InitContainers ++ p.Spec.Containers,
        ZeroOrAbsent c.Resources.Limits "cpu" ∨ ZeroOrAbsent c.Resources.Limits "memory") →
      (scoreContainerLimits p).Grade = 0) ∧
    (p.Spec.InitContainers ++ p.Spec.Containers ≠ [] →
      (¬ ∃ c ∈ p.Spec.InitContainers ++ p.Spec.Containers,
        ZeroOrAbsent c.Resources.Limits "cpu" ∨ ZeroOrAbsent c.Resources.Limits "memory") →
      (∃ c ∈ p.Spec.InitContainers ++ p.Spec.Containers,
        ZeroOrAbsent c.Resources.Requests "cpu" ∨ ZeroOrAbsent c.Resources.Requests "memory") →
      (scoreContainerLimits p).Grade = 5) ∧
    (p.Spec.InitContainers ++ p.Spec.Containers ≠ [] →
      (¬ ∃ c ∈ p.Spec.InitContainers ++ p.Spec.Containers,
        ZeroOrAbsent c.Resources.Limits "cpu" ∨ ZeroOrAbsent c.Resources.Limits "memory") →
      (¬ ∃ c ∈ p.Spec.InitContainers ++ p.Spec.Containers,
        ZeroOrAbsent c.Resources.Requests "cpu" ∨ ZeroOrAbsent c.Resources.Requests "memory") →
      (scoreContainerLimits p).Grade = 10) := by
  have hg := limits_grade_eq p
  have hl : (allContainers p).any missingLimit = true ↔
      ∃ c ∈ p.Spec.InitContainers ++ p.Spec.Containers,
        ZeroOrAbsent c.Resources.Limits "cpu" ∨ ZeroOrAbsent c.Resources.Limits "memory" := by
    simp only [List.any_eq_true, missingLimit_iff, allContainers]
  have hr : (allContainers p).any missingRequest = true ↔
      ∃ c ∈ p.Spec.InitContainers ++ p.Spec.Containers,
        ZeroOrAbsent c.Resources.Requests "cpu" ∨ ZeroOrAbsent c.Resources.Requests "memory" := by
    simp only [List.any_eq_true, missingRequest_iff, allContainers]
  have he : (allContainers p).length = 0 ↔ p.Spec.InitContainers ++ p.Spec.Containers = [] := by
    simp [allContainers]
  refine ⟨?_, ?_, ?_, ?_⟩
  · intro h
    rw [hg, if_pos (he.mpr h)]
  · intro h h1
    rw [hg, if_neg (fun h0 => h (he.mp h0)), if_pos (hl.mpr h1)]
  · intro h h1 h2
    rw [hg, if_neg (fun h0 => h (he.mp h0)), if_neg (fun h0 => h1 (hl.mp h0)),
      if_pos (hr.mpr h2)]
  · intro h h1 h2
    rw [hg, if_neg (fun h0 => h (he.mp h0)), if_neg (fun h0 => h1 (hl.mp h0)),
      if_neg (fun h0 => h2 (hr.mp h0))]

/-- C10: for every pod template with zero init containers and zero regular containers,
`scoreContainerLimits` yields grade 0 and exactly one comment, whose subject is the empty
string and whose summary is "No containers defined". -/
theorem scoreContainerLimits_no_containers (p : PodTemplateSpec)
    (hi : p.Spec.InitContainers = []) (hc : p.Spec.Containers = []) :
    (scoreContainerLimits p).Grade = 0 ∧
    (scoreContainerLimits p).Comments.length = 1 ∧
    (scoreContainerLimits p).Comments = [⟨"", "No containers defined", ""⟩] := by
  simp [scoreContainerLimits, allContainers, hi, hc, TestScore.AddComment, TestScore.zero]

/-- An instance of C10: a labelled pod template without containers. -/
theorem scoreContainerLimits_no_containers_witness :
    (scoreContainerLimits ⟨[("app", "foo")], ⟨[], []⟩⟩).Grade = 0 ∧
    (scoreContainerLimits ⟨[("app", "foo")], ⟨[], []⟩⟩).Comments.length = 1 ∧
    (scoreContainerLimits ⟨[("app", "foo")], ⟨[], []⟩⟩).Comments =
      [⟨"", "No containers defined", ""⟩] :=
  scoreContainerLimits_no_containers ⟨[("app", "foo")], ⟨[], []⟩⟩ rfl rfl

/-- C7: in `scoreContainerImageTag` the tag of an image reference is what follows its last
colon, and the whole reference when it has none; the comments are one per container of
init ++ regular, in order, whose tag is the literal `latest`, each naming its container;
the grade is 0 if some container has the tag `latest` and 10 otherwise. So a reference
without a colon is flagged only when it is exactly `latest`, and `registry:5000/app` is
not flagged. -/
theorem scoreContainerImageTag_contract (p : PodTemplateSpec) :
    (∀ s : String, ':' ∉ s.data → imageVersion s = s) ∧
    (∀ a b : List Char, ':' ∉ b → imageVersion (String.mk (a ++ ':' :: b)) = String.mk b) ∧
    (scoreContainerImageTag p).Comments =
      ((p.Spec.InitContainers ++ p.Spec.Containers).filter
        (fun c => decide (imageVersion c.Image = "latest"))).map
        (fun c => ⟨c.Name, "Image with latest tag",
          "Using a fixed tag is recommended to avoid accidental upgrades"⟩) ∧
    ((∃ c ∈ p.Spec.InitContainers ++ p.Spec.Containers, imageVersion c.Image = "latest") →
      (scoreContainerImageTag p).Grade = 0) ∧
    ((¬ ∃ c ∈ p.Spec.InitContainers ++ p.Spec.Containers, imageVersion c.Image = "latest") →
      (scoreContainerImageTag p).Grade = 10) ∧
    (∀ s : String, ':' ∉ s.data → (imageVersion s = "latest" ↔ s = "latest")) ∧
    imageVersion "registry:5000/app" = "5000/app" ∧
    imageVersion "registry:5000/app" ≠ "latest" := by
  have hany : (allContainers p).any hasLatestTag = true ↔
      ∃ c ∈ p.Spec.InitContainers ++ p.Spec.Containers, imageVersion c.Image = "latest" := by
    simp only [List.any_eq_true, allContainers, hasLatestTag, decide_eq_true_eq]
  refine ⟨imageVersion_of_no_colon, imageVersion_after_last_colon, ?_, ?_, ?_, ?_, ?_, ?_⟩
  · exact imageTag_comments p
  · intro h
    unfold scoreContainerImageTag
    simp only [imageTag_foldl, Bool.false_or]
    rw [if_pos (hany.mpr h)]
  · intro h
    unfold scoreContainerImageTag
    simp only [imageTag_foldl, Bool.false_or]
    rw [if_neg (fun h0 => h (hany.mp h0))]
  · intro s hs
    rw [imageVersion_of_no_colon s hs]
  · decide
  · decide

/-- C9: `scoreContainerImagePullPolicy` adds one comment, naming the container, for each
container of init ++ regular, in order, whose pull policy is not `Always` (the values
`IfNotPresent`, `Never` and the unset empty value alike); the grade is 10 if every
container's pull policy is `Always`, also when there is no container, and 0 otherwise. -/
theorem scoreContainerImagePullPolicy_contract (p : PodTemplateSpec) :
    (scoreContainerImagePullPolicy p).Comments =
      ((p.Spec.InitContainers ++ p.Spec.Containers).filter
        (fun c => decide (c.ImagePullPolicy ≠ "Always"))).map
        (fun c => ⟨c.Name, "ImagePullPolicy is not set to PullAlways",
          "It's recommended to always set the ImagePullPolicy to PullAlways, to make sure that the imagePullSecrets are always correct, and to always get the image you want."⟩) ∧
    ((∀ c ∈ p.Spec.InitContainers ++ p.Spec.Containers, c.ImagePullPolicy = "Always") →
      (scoreContainerImagePullPolicy p).Grade = 10) ∧
    ((¬ ∀ c ∈ p.Spec.InitContainers ++ p.Spec.Containers, c.ImagePullPolicy = "Always") →
      (scoreContainerImagePullPolicy p).Grade = 0) ∧
    (p.Spec.InitContainers ++ p.Spec.Containers = [] →
      (scoreContainerImagePullPolicy p).Grade = 10) ∧
    (∀ c : Container, c.ImagePullPolicy = "IfNotPresent" ∨ c.ImagePullPolicy = "Never" ∨
      c.ImagePullPolicy = "" → notPullAlways c = true) := by
  have hany : (allContainers p).any notPullAlways = true ↔
      ¬ ∀ c ∈ p.Spec.InitContainers ++ p.Spec.Containers, c.ImagePullPolicy = "Always" := by
    simp only [List.any_eq_true, allContainers, notPullAlways, PullAlways, decide_eq_true_eq,
      not_forall, exists_prop]
  have hall : (∀ c ∈ p.Spec.InitContainers ++ p.Spec.Containers, c.ImagePullPolicy = "Always") →
      (scoreContainerImagePullPolicy p).Grade = 10 := by
    intro h
    unfold scoreContainerImagePullPolicy
    simp only [pullPolicy_foldl, Bool.false_or]
    rw [if_neg (fun h0 => hany.mp h0 h)]
  refine ⟨?_, hall, ?_, ?_, ?_⟩
  · exact pullPolicy_comments p
  · intro h
    unfold scoreContainerImagePullPolicy
    simp only [pullPolicy_foldl, Bool.false_or]
    rw [if_pos (hany.mpr h)]
  · intro h
    apply hall
    rw [h]
    intro c hc
    cases hc
  · intro c hc
    rcases hc with hc | hc | hc <;> simp [notPullAlways, PullAlways, hc]

/-- C8: `scoreContainerSecurityContext` grades binary: the grade is 0 exactly when some
container of init ++ regular has a security context with privileged set to true, or
read-only root filesystem explicitly set to false, or run-as-user set below 10000, or
run-as-group set below 10000, and 10 otherwise. A container without a security context,
or with one whose four fields are all unset, changes neither a flag nor the comments,
and neither does one whose user and group IDs are exactly 10000. -/
theorem scoreContainerSecurityContext_contract (p : PodTemplateSpec) :
    ((scoreContainerSecurityContext p).Grade = 0 ↔
      ∃ c ∈ p.Spec.InitContainers ++ p.Spec.Containers,
        ∃ sec, c.SecurityContext = some sec ∧ Flagged sec) ∧
    ((¬ ∃ c ∈ p.Spec.InitContainers ++ p.Spec.Containers,
        ∃ sec, c.SecurityContext = some sec ∧ Flagged sec) →
      (scoreContainerSecurityContext p).Grade = 10) ∧
    (∀ (st : SecurityState) (c : Container),
      c.SecurityContext = none ∨ c.SecurityContext = some ⟨none, none, none, none⟩ →
      securityStep st c = st) ∧
    (∀ (st : SecurityState) (c : Container),
      c.SecurityContext = some ⟨none, none, some 10000, some 10000⟩ →
      securityStep st c = st) := by
  have hany : ((allContainers p).any (secFlag isPrivileged) ||
      (allContainers p).any (secFlag isWritableRootFS) ||
      (allContainers p).any (secFlag isLowUserID) ||
      (allContainers p).any (secFlag isLowGroupID)) = true ↔
      ∃ c ∈ p.Spec.InitContainers ++ p.Spec.Containers,
        ∃ sec, c.SecurityContext = some sec ∧ Flagged sec := by
    constructor
    · intro h
      simp only [Bool.or_eq_true, List.any_eq_true] at h
      have key : ∀ f : SecurityContext → Bool, (∀ sec, f sec = true → Flagged sec) →
          (∃ c ∈ allContainers p, secFlag f c = true) →
          ∃ c ∈ p.Spec.InitContainers ++ p.Spec.Containers,
            ∃ sec, c.SecurityContext = some sec ∧ Flagged sec := by
        intro f hf hx
        obtain ⟨c, hc, hfc⟩ := hx
        refine ⟨c, hc, ?_⟩
        unfold secFlag at hfc
        cases hs : c.SecurityContext with
        | none => simp [hs] at hfc
        | some sec =>
          rw [hs] at hfc
          exact ⟨sec, rfl, hf sec hfc⟩
      rcases h with ((h | h) | h) | h
      · exact key _ (fun sec hs => (flagged_iff sec).mp (by simp [hs])) h
      · exact key _ (fun sec hs => (flagged_iff sec).mp (by simp [hs])) h
      · exact key _ (fun sec hs => (flagged_iff sec).mp (by simp [hs])) h
      · exact key _ (fun sec hs => (flagged_iff sec).mp (by simp [hs])) h
    · rintro ⟨c, hc, sec, hs, hf⟩
      have h4 := (flagged_iff sec).mpr hf
      simp only [Bool.or_eq_true] at h4
      simp only [Bool.or_eq_true, List.any_eq_true]
      rcases h4 with ((h | h) | h) | h
      · exact Or.inl (Or.inl (Or.inl ⟨c, hc, by simp [secFlag, hs, h]⟩))
      · exact Or.inl (Or.inl (Or.inr ⟨c, hc, by simp [secFlag, hs, h]⟩))
      · exact Or.inl (Or.inr ⟨c, hc, by simp [secFlag, hs, h]⟩)
      · exact Or.inr ⟨c, hc, by simp [secFlag, hs, h]⟩
  have hgrade : (scoreContainerSecurityContext p).Grade =
      if ((allContainers p).any (secFlag isPrivileged) ||
        (allContainers p).any (secFlag isWritableRootFS) ||
        (allContainers p).any (secFlag isLowUserID) ||
        (allContainers p).any (secFlag isLowGroupID)) = true then 0 else 10 := by
    unfold scoreContainerSecurityContext
    simp only [security_foldl, Bool.false_or]
    split_ifs <;> rfl
  refine ⟨?_, ?_, ?_, ?_⟩
  · rw [hgrade, ← hany]
    split_ifs with h <;> simp [h]
  · intro h
    rw [hgrade, if_neg (fun h0 => h (hany.mp h0))]
  · intro st c hc
    rcases hc with hc | hc <;>
      simp [securityStep, hc, isPrivileged, isWritableRootFS, isLowUserID, isLowGroupID]
  · intro st c hc
    simp [securityStep, hc, isPrivileged, isWritableRootFS, isLowUserID, isLowGroupID]

/-- C2: `scoreContainerProbes` grades by an ordered decision list. With L = some container
has a liveness probe, R = some container has a readiness probe, T = the pod is targeted by
a service, I = some container has identical probes, the grade is 10 if L and (R or not T)
and not I; 7 if L and (R or not T) and I; otherwise 0 if neither L nor R; otherwise 0 if T
and not R; otherwise 5 if not L; otherwise 0. -/
theorem scoreContainerProbes_grade_ladder (svcs : List Service) (p : PodTemplateSpec) :
    (SomeLiveness p ∧ (SomeReadiness p ∨ ¬ isTargetedByService svcs p = true) ∧
        ¬ SomeIdentical p → (scoreContainerProbes svcs p).Grade = 10) ∧
    (SomeLiveness p ∧ (SomeReadiness p ∨ ¬ isTargetedByService svcs p = true) ∧
        SomeIdentical p → (scoreContainerProbes svcs p).Grade = 7) ∧
    (¬ (SomeLiveness p ∧ (SomeReadiness p ∨ ¬ isTargetedByService svcs p = true)) →
      (¬ SomeLiveness p ∧ ¬ SomeReadiness p) → (scoreContainerProbes svcs p).Grade = 0) ∧
    (¬ (SomeLiveness p ∧ (SomeReadiness p ∨ ¬ isTargetedByService svcs p = true)) →
      ¬ (¬ SomeLiveness p ∧ ¬ SomeReadiness p) →
      (isTargetedByService svcs p = true ∧ ¬ SomeReadiness p) →
      (scoreContainerProbes svcs p).Grade = 0) ∧
    (¬ (SomeLiveness p ∧ (SomeReadiness p ∨ ¬ isTargetedByService svcs p = true)) →
      ¬ (¬ SomeLiveness p ∧ ¬ SomeReadiness p) →
      ¬ (isTargetedByService svcs p = true ∧ ¬ SomeReadiness p) →
      ¬ SomeLiveness p → (scoreContainerProbes svcs p).Grade = 5) ∧
    (¬ (SomeLiveness p ∧ (SomeReadiness p ∨ ¬ isTargetedByService svcs p = true)) →
      ¬ (¬ SomeLiveness p ∧ ¬ SomeReadiness p) →
      ¬ (isTargetedByService svcs p = true ∧ ¬ SomeReadiness p) →
      ¬ ¬ SomeLiveness p → (scoreContainerProbes svcs p).Grade = 0) := by
  rw [probes_grade_eq, ← someLiveness_iff, ← someReadiness_iff, ← someIdentical_iff]
  generalize (allContainers p).any (fun c => c.LivenessProbe.isSome) = bl
  generalize (allContainers p).any (fun c => c.ReadinessProbe.isSome) = br
  generalize (allContainers p).any reportsIdentical = bi
  generalize isTargetedByService svcs p = bt
  cases bl <;> cases br <;> cases bi <;> cases bt <;> simp [probesGrade]

/-- C3: the claim's own example, evaluated on the code. The only service has selector
`{app: foo, tier: api}` and the pod is labelled `{app: foo, tier: web}`: the selector is
not a subset of the labels, yet the loop of lines 122-128 raises the flag at the entry
`app: foo`. Its container `live`, which has a liveness probe and no readiness probe, gets
the missing-readinessProbe comment and the pod gets grade 0; with the pod left untargeted,
as the subset test demands, the result would be grade 10 without a comment, as it is for
the empty service list. -/
theorem isTargetedByService_partial_match :
    (¬ ∃ s ∈ [fooApiService],
      SelectorSubset s.Spec.Selector [("app", "foo"), ("tier", "web")]) ∧
    isTargetedByService [fooApiService]
      ⟨[("app", "foo"), ("tier", "web")], ⟨[], [liveContainer]⟩⟩ = true ∧
    scoreContainerProbes [fooApiService]
      ⟨[("app", "foo"), ("tier", "web")], ⟨[], [liveContainer]⟩⟩ =
      ⟨"Pod Probes", 0,
        [⟨"live", "Container is missing a readinessProbe",
          "Without a readinessProbe Services will start sending traffic to this pod before it's ready"⟩]⟩ ∧
    scoreContainerProbes []
      ⟨[("app", "foo"), ("tier", "web")], ⟨[], [liveContainer]⟩⟩ = ⟨"Pod Probes", 10, []⟩ := by
  refine ⟨?_, by decide, by decide, by decide⟩
  rintro ⟨s, hs, h⟩
  rw [List.mem_singleton] at hs
  subst hs
  have := h ("tier", "api") (by simp [fooApiService])
  revert this
  decide

/-- C4: in `scoreContainerProbes` a pod is never targeted by vacuous truth. If the service
list is empty, or every service has an empty selector, or no selector entry `(k, v)` of
any service has `labels[k] = v`, then the pod is not targeted; no missing-readinessProbe
comment is produced; and a pod in which some container has a liveness probe and no
container has identical probes gets grade 10, in particular one whose containers have
liveness probes but no readiness probes. -/
theorem isTargetedByService_never_vacuous (svcs : List Service) (p : PodTemplateSpec)
    (h : svcs = [] ∨ (∀ s ∈ svcs, s.Spec.Selector = []) ∨
      (∀ s ∈ svcs, ∀ e ∈ s.Spec.Selector, p.Labels.lookup e.1 ≠ some e.2)) :
    isTargetedByService svcs p = false ∧
    (∀ cm ∈ (scoreContainerProbes svcs p).Comments,
      cm.Summary ≠ "Container is missing a readinessProbe") ∧
    (SomeLiveness p → ¬ SomeIdentical p → (scoreContainerProbes svcs p).Grade = 10) ∧
    (SomeLiveness p →
      (∀ c ∈ p.Spec.InitContainers ++ p.Spec.Containers, c.ReadinessProbe = none) →
      (scoreContainerProbes svcs p).Grade = 10) := by
  have hno : ∀ s ∈ svcs, ∀ e ∈ s.Spec.Selector, p.Labels.lookup e.1 ≠ some e.2 := by
    rcases h with h | h | h
    · intro s hs
      rw [h] at hs
      cases hs
    · intro s hs e he
      rw [h s hs] at he
      cases he
    · exact h
  have ht : isTargetedByService svcs p = false := by
    rw [isTargetedByService_eq_false_iff]
    rintro ⟨s, hs, e, he, hm⟩
    exact hno s hs e he hm
  have hten : SomeLiveness p → ¬ SomeIdentical p → (scoreContainerProbes svcs p).Grade = 10 := by
    intro hl hi
    rw [probes_grade_eq, ht, (someLiveness_iff p).mpr hl]
    have hi' : (allContainers p).any reportsIdentical = false := by
      rw [← Bool.not_eq_true, someIdentical_iff]
      exact hi
    rw [hi']
    cases (allContainers p).any (fun c => c.ReadinessProbe.isSome) <;> rfl
  refine ⟨ht, ?_, hten, ?_⟩
  · intro cm hcm
    rw [probes_comments_eq, ht, List.mem_flatMap] at hcm
    obtain ⟨c, _, hc⟩ := hcm
    exact summary_of_mem_probesComments_false c cm hc
  · intro hl hr
    apply hten hl
    rintro ⟨c, hc, r, l, hcr, _, _⟩
    rw [hr c hc] at hcr
    cases hcr

/-- An instance of C4: a service selecting `{app: bar}` and a pod labelled `{app: foo}`
whose one container has a liveness probe only. -/
theorem isTargetedByService_never_vacuous_witness :
    isTargetedByService [⟨⟨[("app", "bar")]⟩⟩]
      ⟨[("app", "foo")], ⟨[], [{ bareContainer with
        LivenessProbe := some ⟨none, some ⟨"/healthz", ⟨IntstrType.Int, 8080, ""⟩, "", ""⟩, none⟩ }]⟩⟩
      = false ∧
    (scoreContainerProbes [⟨⟨[("app", "bar")]⟩⟩]
      ⟨[("app", "foo")], ⟨[], [{ bareContainer with
        LivenessProbe := some ⟨none, some ⟨"/healthz", ⟨IntstrType.Int, 8080, ""⟩, "", ""⟩, none⟩ }]⟩⟩).Grade
      = 10 := by
  have h := isTargetedByService_never_vacuous [⟨⟨[("app", "bar")]⟩⟩]
    ⟨[("app", "foo")], ⟨[], [{ bareContainer with
      LivenessProbe := some ⟨none, some ⟨"/healthz", ⟨IntstrType.Int, 8080, ""⟩, "", ""⟩, none⟩ }]⟩⟩
    (Or.inr (Or.inr (by decide)))
  exact ⟨h.1, h.2.2.2 ⟨_, List.mem_singleton.mpr rfl, by decide⟩ (by decide)⟩

/-- C5: probe-identity detection in `scoreContainerProbes` uses mechanism-specific
equality. The pod-wide identical flag is set exactly when some container has a readiness
and a liveness probe that are both HTTP with equal path and equal resolved port number, or
both TCP with equal port, or both exec with command lists of the same length that are equal
element by element; the identity comment with subject `n` is among the comments exactly
when a container named `n` is such a container; and one loop iteration raises the flag,
and appends the identity comment for its container, exactly for such a container. The
resolved port number is the integer of an integer port and, for a string port, what
`strconv.Atoi` returns with its error dropped: the number for a numeral, 0 for a name, 0
when a byte that is no digit comes before the digits overflow, and the largest `int64`
when the digits overflow first. So the string ports `99999999999999999999x` and
`9223372036854775807` are identical (grade 7, one identity comment), and
`99999999999999999999x` and `http` are not (grade 10, no comment). -/
theorem probesAreIdentical_iff_sameProbe (svcs : List Service) (p : PodTemplateSpec) :
    ((probesLoop svcs p).probesAreIdentical = true ↔
      ∃ c ∈ p.Spec.InitContainers ++ p.Spec.Containers,
        ∃ r l, c.ReadinessProbe = some r ∧ c.LivenessProbe = some l ∧ SameProbe r l) ∧
    (∀ n : String,
      (⟨n, "Container has the same readiness and liveness probe",
          "It's recommended to have different probes for the two different purposes."⟩ :
            TestScoreComment) ∈ (scoreContainerProbes svcs p).Comments ↔
        ∃ c ∈ p.Spec.InitContainers ++ p.Spec.Containers, c.Name = n ∧
          ∃ r l, c.ReadinessProbe = some r ∧ c.LivenessProbe = some l ∧ SameProbe r l) ∧
    (∀ (targeted : Bool) (st : ProbesState) (c : Container),
      st.probesAreIdentical = false →
      identityComment c.Name ∉ st.score.Comments →
      (((probesStep targeted st c).probesAreIdentical = true ↔
          ∃ r l, c.ReadinessProbe = some r ∧ c.LivenessProbe = some l ∧ SameProbe r l) ∧
        (identityComment c.Name ∈ (probesStep targeted st c).score.Comments ↔
          ∃ r l, c.ReadinessProbe = some r ∧ c.LivenessProbe = some l ∧ SameProbe r l))) ∧
    (∀ (v : Int) (str : String), (⟨IntstrType.Int, v, str⟩ : IntOrString).IntValue = v) ∧
    (∀ (v : Int) (str : String),
      (⟨IntstrType.String, v, str⟩ : IntOrString).IntValue = Atoi str) ∧
    (Atoi "8080" = 8080 ∧ Atoi "+8080" = 8080 ∧ Atoi "-8080" = -8080 ∧ Atoi "http" = 0 ∧
      Atoi "" = 0 ∧ Atoi "80a" = 0 ∧
      Atoi "9223372036854775807" = 9223372036854775807 ∧
      Atoi "9223372036854775808" = 9223372036854775807 ∧
      Atoi "-9223372036854775809" = -9223372036854775808 ∧
      Atoi "9x99999999999999999999" = 0 ∧
      Atoi "99999999999999999999x" = 9223372036854775807) ∧
    scoreContainerProbes []
        ⟨[], ⟨[], [stringPortContainer "99999999999999999999x" "9223372036854775807"]⟩⟩ =
      ⟨"Pod Probes", 7,
        [⟨"web", "Container has the same readiness and liveness probe",
          "It's recommended to have different probes for the two different purposes."⟩]⟩ ∧
    scoreContainerProbes []
        ⟨[], ⟨[], [stringPortContainer "99999999999999999999x" "http"]⟩⟩ =
      ⟨"Pod Probes", 10, []⟩ := by
  refine ⟨?_, ?_, ?_, fun _ _ => rfl, fun _ _ => rfl, by decide, by decide, by decide⟩
  · rw [probesLoop_eq]
    exact someIdentical_iff p
  · intro n
    rw [probes_comments_eq, List.mem_flatMap]
    constructor
    · rintro ⟨c, hc, hm⟩
      have h := (mem_probesComments_identity _ c n).mp hm
      exact ⟨c, hc, h.1, (reportsIdentical_iff c).mp h.2⟩
    · rintro ⟨c, hc, hn, hi⟩
      exact ⟨c, hc, (mem_probesComments_identity _ c n).mpr ⟨hn, (reportsIdentical_iff c).mpr hi⟩⟩
  · intro targeted st c hflag hcm
    rw [probesStep_eq]
    constructor
    · simp only [hflag, Bool.false_or]
      exact reportsIdentical_iff c
    · simp only [List.mem_append, mem_probesComments_identity, true_and]
      constructor
      · rintro (h | h)
        · exact absurd h hcm
        · exact (reportsIdentical_iff c).mp h
      · intro h
        exact Or.inr ((reportsIdentical_iff c).mpr h)

/-- An instance of the loop-iteration part of C5: from the initial loop state, a container
whose readiness probe is HTTP `/healthz` on the integer port 8080 and whose liveness probe
is HTTP `/healthz` on the string port `8080` raises the flag. -/
theorem probesAreIdentical_iff_sameProbe_witness :
    (probesStep true ⟨TestScore.zero, false, false, false⟩
      { bareContainer with
        ReadinessProbe := some ⟨none, some ⟨"/healthz", ⟨IntstrType.Int, 8080, ""⟩, "", ""⟩, none⟩
        LivenessProbe := some ⟨none, some ⟨"/healthz", ⟨IntstrType.String, 0, "8080"⟩, "", ""⟩, none⟩ }).probesAreIdentical
      = true :=
  ((probesAreIdentical_iff_sameProbe [] fooWebPod).2.2.1 true
    ⟨TestScore.zero, false, false, false⟩ _ rfl (by decide)).1.mpr
    ⟨_, _, rfl, rfl, Or.inl ⟨_, _, rfl, rfl, rfl, by decide⟩⟩

/-- C6: probe-identity detection is type-guarded and symmetric. For a container whose
readiness and liveness probes each use exactly one mechanism: if the mechanisms differ,
the loop iteration leaves the identical flag and the comments as they were, whatever the
values; and exchanging the two probes changes neither whether the container is reported
as identical nor the result of the loop iteration. -/
theorem probe_identity_type_guarded_symmetric (targeted : Bool) (st : ProbesState)
    (c : Container) (r l : Probe) (mr ml : Mechanism)
    (hr : c.ReadinessProbe = some r) (hl : c.LivenessProbe = some l)
    (hmr : r.mechanism? = some mr) (hml : l.mechanism? = some ml) :
    (mr ≠ ml →
      reportsIdentical c = false ∧
      (probesStep targeted st c).probesAreIdentical = st.probesAreIdentical ∧
      (probesStep targeted st c).score.Comments = st.score.Comments) ∧
    reportsIdentical (swapProbes c) = reportsIdentical c ∧
    probesStep targeted st (swapProbes c) = probesStep targeted st c := by
  have hswap : reportsIdentical (swapProbes c) = reportsIdentical c := by
    simp only [reportsIdentical, swapProbes, hr, hl, httpSame_comm l r, tcpSame_comm l r,
      execSame_comm l r]
  refine ⟨?_, hswap, ?_⟩
  · intro hne
    obtain ⟨h1, h2, h3⟩ := same_false_of_mechanism_ne r l mr ml hmr hml hne
    have hrep : reportsIdentical c = false := by
      simp [reportsIdentical, hr, hl, h1, h2, h3]
    refine ⟨hrep, ?_, ?_⟩
    · rw [probesStep_eq]
      simp [hrep]
    · rw [probesStep_eq]
      simp [probesComments, identityComments, hr, hl, h1, h2, h3]
  · rw [probesStep_eq, probesStep_eq, hswap]
    simp [probesComments, identityComments, swapProbes, hr, hl, httpSame_comm l r,
      tcpSame_comm l r, execSame_comm l r]

/-- An instance of C6: an HTTP readiness probe and a TCP liveness probe, both on port
8080, are not reported as identical, in either order. -/
theorem probe_identity_type_guarded_symmetric_witness :
    reportsIdentical
      { bareContainer with
        ReadinessProbe := some ⟨none, some ⟨"/", ⟨IntstrType.Int, 8080, ""⟩, "", ""⟩, none⟩
        LivenessProbe := some ⟨none, none, some ⟨⟨IntstrType.Int, 8080, ""⟩, ""⟩⟩ } = false ∧
    reportsIdentical (swapProbes
      { bareContainer with
        ReadinessProbe := some ⟨none, some ⟨"/", ⟨IntstrType.Int, 8080, ""⟩, "", ""⟩, none⟩
        LivenessProbe := some ⟨none, none, some ⟨⟨IntstrType.Int, 8080, ""⟩, ""⟩⟩ }) =
      reportsIdentical
        { bareContainer with
          ReadinessProbe := some ⟨none, some ⟨"/", ⟨IntstrType.Int, 8080, ""⟩, "", ""⟩, none⟩
          LivenessProbe := some ⟨none, none, some ⟨⟨IntstrType.Int, 8080, ""⟩, ""⟩⟩ } :=
  have h := probe_identity_type_guarded_symmetric true ⟨TestScore.zero, false, false, false⟩
    { bareContainer with
      ReadinessProbe := some ⟨none, some ⟨"/", ⟨IntstrType.Int, 8080, ""⟩, "", ""⟩, none⟩
      LivenessProbe := some ⟨none, none, some ⟨⟨IntstrType.Int, 8080, ""⟩, ""⟩⟩ }
    ⟨none, some ⟨"/", ⟨IntstrType.Int, 8080, ""⟩, "", ""⟩, none⟩
    ⟨none, none, some ⟨⟨IntstrType.Int, 8080, ""⟩, ""⟩⟩
    Mechanism.http Mechanism.tcp rfl rfl rfl rfl
  ⟨(h.1 (by decide)).1, h.2.1⟩

/-! ### Instances -/

/-- An instance of C1, third rung: one container with both limits and no request gets
grade 5. -/
theorem scoreContainerLimits_grade_ladder_witness :
    (scoreContainerLimits ⟨[], ⟨[], [limitedContainer]⟩⟩).Grade = 5 :=
  (scoreContainerLimits_grade_ladder ⟨[], ⟨[], [limitedContainer]⟩⟩).2.2.1
    (by decide)
    (by
      rintro ⟨c, hc, h⟩
      rw [List.nil_append, List.mem_singleton] at hc
      subst hc
      exact absurd ((missingLimit_iff limitedContainer).mpr h) (by decide))
    ⟨limitedContainer, by simp, (missingRequest_iff limitedContainer).mp (by decide)⟩

/-- An instance of C2, fifth rule: with no service, one container with a readiness probe
and no liveness probe gets grade 5. -/
theorem scoreContainerProbes_grade_ladder_witness :
    (scoreContainerProbes [] ⟨[], ⟨[], [readyContainer]⟩⟩).Grade = 5 :=
  (scoreContainerProbes_grade_ladder [] ⟨[], ⟨[], [readyContainer]⟩⟩).2.2.2.2.1
    (by rw [← someLiveness_iff, ← someReadiness_iff]; decide)
    (by rw [← someLiveness_iff, ← someReadiness_iff]; decide)
    (by rw [← someReadiness_iff]; decide)
    (by rw [← someLiveness_iff]; decide)

/-- An instance of C7: one container with image `app:latest` gets grade 0. -/
theorem scoreContainerImageTag_contract_witness :
    (scoreContainerImageTag
      ⟨[], ⟨[], [{ bareContainer with Image := "app:latest" }]⟩⟩).Grade = 0 :=
  (scoreContainerImageTag_contract
    ⟨[], ⟨[], [{ bareContainer with Image := "app:latest" }]⟩⟩).2.2.2.1
    ⟨{ bareContainer with Image := "app:latest" }, by simp, by decide⟩

/-- An instance of C8: one container whose security context sets only `RunAsUser = 5000`
gets grade 0. -/
theorem scoreContainerSecurityContext_contract_witness :
    (scoreContainerSecurityContext
      ⟨[], ⟨[], [{ bareContainer with
        SecurityContext := some ⟨none, none, some 5000, none⟩ }]⟩⟩).Grade = 0 :=
  (scoreContainerSecurityContext_contract
    ⟨[], ⟨[], [{ bareContainer with
      SecurityContext := some ⟨none, none, some 5000, none⟩ }]⟩⟩).1.mpr
    ⟨_, List.mem_singleton.mpr rfl, ⟨none, none, some 5000, none⟩, rfl,
      Or.inr (Or.inr (Or.inl ⟨5000, rfl, by decide⟩))⟩

/-- An instance of C9: one container with pull policy `IfNotPresent` gets grade 0. -/
theorem scoreContainerImagePullPolicy_contract_witness :
    (scoreContainerImagePullPolicy
      ⟨[], ⟨[], [{ bareContainer with ImagePullPolicy := "IfNotPresent" }]⟩⟩).Grade = 0 :=
  (scoreContainerImagePullPolicy_contract
    ⟨[], ⟨[], [{ bareContainer with ImagePullPolicy := "IfNotPresent" }]⟩⟩).2.2.1
    (fun h => absurd
      (h { bareContainer with ImagePullPolicy := "IfNotPresent" } (List.mem_singleton.mpr rfl))
      (by decide))

/-! ### Comments -/

/-- C11: missing-probe comments in `scoreContainerProbes`. The number of comments
"Container is missing a livenessProbe" equals the number of containers of init ++ regular
without a liveness probe, targeted or not; the number of comments "Container is missing a
readinessProbe" equals the number of containers without a readiness probe if the pod is
targeted by a service, and is zero if it is not. -/
theorem missing_probe_comment_counts (svcs : List Service) (p : PodTemplateSpec) :
    (scoreContainerProbes svcs p).Comments.countP
        (fun cm => decide (cm.Summary = "Container is missing a livenessProbe")) =
      (p.Spec.InitContainers ++ p.Spec.Containers).countP (fun c => c.LivenessProbe.isNone) ∧
    (isTargetedByService svcs p = true →
      (scoreContainerProbes svcs p).Comments.countP
          (fun cm => decide (cm.Summary = "Container is missing a readinessProbe")) =
        (p.Spec.InitContainers ++ p.Spec.Containers).countP
          (fun c => c.ReadinessProbe.isNone)) ∧
    (isTargetedByService svcs p = false →
      (scoreContainerProbes svcs p).Comments.countP
          (fun cm => decide (cm.Summary = "Container is missing a readinessProbe")) = 0) := by
  refine ⟨?_, ?_, ?_⟩
  · rw [probes_comments_eq]
    exact countP_flatMap_eq _ _ _ (countP_missingLiveness _) _
  · intro ht
    rw [probes_comments_eq, ht]
    exact countP_flatMap_eq _ _ _
      (fun c => by rw [countP_missingReadiness, Bool.and_true]) _
  · intro ht
    rw [probes_comments_eq, ht,
      countP_flatMap_eq _ _ (fun _ => false)
        (fun c => by rw [countP_missingReadiness, Bool.and_false]) _]
    simp

/-- An instance of C11: the pod labelled `{app: foo, tier: web}` with one container without
probes, targeted by the service with selector `{app: foo}`, has one missing-readinessProbe
comment. -/
theorem missing_probe_comment_counts_witness :
    (scoreContainerProbes [fooService] fooWebPod).Comments.countP
        (fun cm => decide (cm.Summary = "Container is missing a readinessProbe")) =
      (fooWebPod.Spec.InitContainers ++ fooWebPod.Spec.Containers).countP
        (fun c => c.ReadinessProbe.isNone) :=
  (missing_probe_comment_counts [fooService] fooWebPod).2.1 (by decide)

/-- C12: comments of `scoreContainerLimits`. For a pod with at least one container the
comment list is the concatenation, over the containers of init ++ regular in order, of one
comment naming the container for each true condition, in the order CPU limit, memory
limit, CPU request, memory request, a condition being true when the resource is zero or
absent. So a pod with one container that sets no resources gets grade 0 and exactly four
comments, all with that container's name as subject. -/
theorem scoreContainerLimits_comments (p : PodTemplateSpec) :
    (p.Spec.InitContainers ++ p.Spec.Containers ≠ [] →
      (scoreContainerLimits p).Comments =
        (p.Spec.InitContainers ++ p.Spec.Containers).flatMap limitsComments) ∧
    (∀ c : Container,
      (c.Resources.Limits.Cpu.IsZero = true ↔ ZeroOrAbsent c.Resources.Limits "cpu") ∧
      (c.Resources.Limits.Memory.IsZero = true ↔ ZeroOrAbsent c.Resources.Limits "memory") ∧
      (c.Resources.Requests.Cpu.IsZero = true ↔ ZeroOrAbsent c.Resources.Requests "cpu") ∧
      (c.Resources.Requests.Memory.IsZero = true ↔
        ZeroOrAbsent c.Resources.Requests "memory")) ∧
    (∀ c : Container, p.Spec.InitContainers ++ p.Spec.Containers = [c] →
      c.Resources.Limits = [] → c.Resources.Requests = [] →
      (scoreContainerLimits p).Grade = 0 ∧
      (scoreContainerLimits p).Comments =
        [⟨c.Name, "CPU limit is not set", "Resource limits are recommended to avoid resource DDOS. Set resources.limits.cpu"⟩,
          ⟨c.Name, "Memory limit is not set", "Resource limits are recommended to avoid resource DDOS. Set resources.limits.memory"⟩,
          ⟨c.Name, "CPU request is not set", "Resource requests are recommended to make sure that the application can start and run without crashing. Set resources.requests.cpu"⟩,
          ⟨c.Name, "Memory request is not set", "Resource requests are recommended to make sure that the application can start and run without crashing. Set resources.requests.memory"⟩]) := by
  refine ⟨?_, ?_, ?_⟩
  · intro h
    have hlen : ¬ (allContainers p).length = 0 := by
      simpa [allContainers] using h
    rw [limits_comments, if_neg hlen, List.append_nil]
    rfl
  · intro c
    exact ⟨cpu_isZero_iff _, memory_isZero_iff _, cpu_isZero_iff _, memory_isZero_iff _⟩
  · intro c hc hl hr
    have hall : allContainers p = [c] := hc
    have hz : c.Resources.Limits.Cpu.IsZero = true ∧ c.Resources.Limits.Memory.IsZero = true ∧
        c.Resources.Requests.Cpu.IsZero = true ∧ c.Resources.Requests.Memory.IsZero = true := by
      rw [hl, hr]
      decide
    constructor
    · rw [limits_grade_eq, hall]
      simp [missingLimit, hz.1]
    · rw [limits_comments, hall]
      simp [limitsComments, hz.1, hz.2.1, hz.2.2.1, hz.2.2.2]

/-- An instance of C12: the pod whose one container `web` sets no resources. -/
theorem scoreContainerLimits_comments_witness :
    (scoreContainerLimits fooWebPod).Grade = 0 ∧
    (scoreContainerLimits fooWebPod).Comments.length = 4 ∧
    ∀ cm ∈ (scoreContainerLimits fooWebPod).Comments, cm.Path = "web" := by
  have h := (scoreContainerLimits_comments fooWebPod).2.2 bareContainer rfl rfl rfl
  refine ⟨h.1, ?_, ?_⟩
  · rw [h.2]
    rfl
  · rw [h.2]
    decide

/-- C13: comments of `scoreContainerSecurityContext`. The comment list is the
concatenation, over the containers of init ++ regular in order, of the comments of each
container: one per true condition, in the order privileged, writable root filesystem, low
user ID, low group ID, pairwise distinct, and none for a container without a security
context. So for every `u < 10000`, a pod with one container whose security context sets
only `RunAsUser = u` gets grade 0 and exactly one comment, the low-user-ID comment naming
that container. -/
theorem scoreContainerSecurityContext_comments (p : PodTemplateSpec) :
    (scoreContainerSecurityContext p).Comments =
      (p.Spec.InitContainers ++ p.Spec.Containers).flatMap securityComments ∧
    (∀ c : Container, c.SecurityContext = none → securityComments c = []) ∧
    (∀ c : Container, (securityComments c).Nodup) ∧
    (∀ (c : Container) (sec : SecurityContext), c.SecurityContext = some sec →
      (secFlag isPrivileged c = true ↔ sec.Privileged = some true) ∧
      (secFlag isWritableRootFS c = true ↔ sec.ReadOnlyRootFilesystem = some false) ∧
      (secFlag isLowUserID c = true ↔ ∃ u, sec.RunAsUser = some u ∧ u < 10000) ∧
      (secFlag isLowGroupID c = true ↔ ∃ g, sec.RunAsGroup = some g ∧ g < 10000)) ∧
    (∀ (u : Int) (c : Container), u < 10000 →
      c.SecurityContext = some ⟨none, none, some u, none⟩ →
      p.Spec.InitContainers ++ p.Spec.Containers = [c] →
      (scoreContainerSecurityContext p).Grade = 0 ∧
      (scoreContainerSecurityContext p).Comments =
        [⟨c.Name, "The container is running with a low user ID", "A userid above 10 000 is recommended to avoid conflicts with the host. Set securityContext.RunAsUser to a value > 10000"⟩]) := by
  refine ⟨security_comments p, ?_, ?_, ?_, ?_⟩
  · intro c hc
    simp [securityComments, secFlag, hc]
  · intro c
    unfold securityComments
    cases secFlag isPrivileged c <;> cases secFlag isWritableRootFS c <;>
      cases secFlag isLowUserID c <;> cases secFlag isLowGroupID c <;> simp
  · intro c sec hc
    simp only [secFlag, hc, isPrivileged, isWritableRootFS, isLowUserID, isLowGroupID]
    refine ⟨?_, ?_, ?_, ?_⟩
    · cases sec.Privileged <;> simp
    · cases sec.ReadOnlyRootFilesystem <;> simp
    · cases sec.RunAsUser <;> simp
    · cases sec.RunAsGroup <;> simp
  · intro u c hu hc hall
    have hall' : allContainers p = [c] := hall
    have hf : secFlag isPrivileged c = false ∧ secFlag isWritableRootFS c = false ∧
        secFlag isLowUserID c = true ∧ secFlag isLowGroupID c = false := by
      simp [secFlag, hc, isPrivileged, isWritableRootFS, isLowUserID, isLowGroupID, hu]
    constructor
    · rw [security_grade_eq, hall']
      simp [hf.2.2.1]
    · rw [security_comments, hall']
      simp [securityComments, hf.1, hf.2.1, hf.2.2.1, hf.2.2.2]

/-- An instance of C13: one container named `web` with `RunAsUser = 5000` and no other
security field. -/
theorem scoreContainerSecurityContext_comments_witness :
    (scoreContainerSecurityContext
      ⟨[], ⟨[], [{ bareContainer with
        SecurityContext := some ⟨none, none, some 5000, none⟩ }]⟩⟩).Comments =
      [⟨"web", "The container is running with a low user ID", "A userid above 10 000 is recommended to avoid conflicts with the host. Set securityContext.RunAsUser to a value > 10000"⟩] :=
  ((scoreContainerSecurityContext_comments
    ⟨[], ⟨[], [{ bareContainer with
      SecurityContext := some ⟨none, none, some 5000, none⟩ }]⟩⟩).2.2.2.2 5000
    { bareContainer with SecurityContext := some ⟨none, none, some 5000, none⟩ }
    (by decide) rfl rfl).2

/-- C14: for every pod template with exactly one container whose readiness and liveness
probes are both present, use the same single mechanism and are equal under that
mechanism's equality, and for every service list, `scoreContainerProbes` yields grade 7 and
exactly one comment: the identical-probes comment naming that container. -/
theorem scoreContainerProbes_identical_single (svcs : List Service) (p : PodTemplateSpec)
    (c : Container) (r l : Probe) (m : Mechanism)
    (hc : p.Spec.InitContainers ++ p.Spec.Containers = [c])
    (hr : c.ReadinessProbe = some r) (hl : c.LivenessProbe = some l)
    (hmr : r.mechanism? = some m) (hml : l.mechanism? = some m) (hs : SameProbe r l) :
    (scoreContainerProbes svcs p).Grade = 7 ∧
    (scoreContainerProbes svcs p).Comments =
      [⟨c.Name, "Container has the same readiness and liveness probe",
        "It's recommended to have different probes for the two different purposes."⟩] := by
  have hall : allContainers p = [c] := hc
  obtain ⟨hcm, hrep⟩ := identityComments_of_same_mechanism c r l m hr hl hmr hml hs
  constructor
  · rw [probes_grade_eq, hall]
    simp only [List.any_cons, List.any_nil, Bool.or_false, hr, hl, hrep, Option.isSome_some]
    cases isTargetedByService svcs p <;> rfl
  · rw [probes_comments_eq, hall]
    simp [probesComments, hr, hl, hcm, identityComment]

/-- An instance of C14: one container whose readiness and liveness probes are HTTP
`/healthz` on the string ports `99999999999999999999x` and `9223372036854775807`, which
both resolve to the largest `int64`, in a pod targeted by the service with selector
`{app: foo}`. -/
theorem scoreContainerProbes_identical_single_witness :
    isTargetedByService [fooService]
      ⟨[("app", "foo"), ("tier", "web")],
        ⟨[], [stringPortContainer "99999999999999999999x" "9223372036854775807"]⟩⟩ = true ∧
    (scoreContainerProbes [fooService]
      ⟨[("app", "foo"), ("tier", "web")],
        ⟨[], [stringPortContainer "99999999999999999999x" "9223372036854775807"]⟩⟩).Grade = 7 ∧
    (scoreContainerProbes [fooService]
      ⟨[("app", "foo"), ("tier", "web")],
        ⟨[], [stringPortContainer "99999999999999999999x" "9223372036854775807"]⟩⟩).Comments =
      [⟨"web", "Container has the same readiness and liveness probe",
        "It's recommended to have different probes for the two different purposes."⟩] :=
  ⟨by decide,
    scoreContainerProbes_identical_single [fooService]
      ⟨[("app", "foo"), ("tier", "web")],
        ⟨[], [stringPortContainer "99999999999999999999x" "9223372036854775807"]⟩⟩
      (stringPortContainer "99999999999999999999x" "9223372036854775807")
      ⟨none, some ⟨"/healthz", ⟨IntstrType.String, 0, "99999999999999999999x"⟩, "", ""⟩, none⟩
      ⟨none, some ⟨"/healthz", ⟨IntstrType.String, 0, "9223372036854775807"⟩, "", ""⟩, none⟩
      Mechanism.http rfl rfl rfl rfl rfl (Or.inl ⟨_, _, rfl, rfl, rfl, by decide⟩)⟩

/-- C15: every comment a check produces is attributed to an existing container. For each
of the five checks the subject of every comment is the name of some container of
init ++ regular of the evaluated pod template; the only exception is the empty-subject
comment "No containers defined", which `scoreContainerLimits` produces, once, exactly when
the pod has no container. -/
theorem comment_subject_is_container (svcs : List Service) (p : PodTemplateSpec) :
    (∀ cm ∈ (scoreContainerLimits p).Comments,
      (∃ c ∈ p.Spec.InitContainers ++ p.Spec.Containers, cm.Path = c.Name) ∨
      (p.Spec.InitContainers ++ p.Spec.Containers = [] ∧
        cm = ⟨"", "No containers defined", ""⟩)) ∧
    (p.Spec.InitContainers ++ p.Spec.Containers = [] →
      (scoreContainerLimits p).Comments = [⟨"", "No containers defined", ""⟩]) ∧
    (∀ cm ∈ (scoreContainerImageTag p).Comments,
      ∃ c ∈ p.Spec.InitContainers ++ p.Spec.Containers, cm.Path = c.Name) ∧
    (∀ cm ∈ (scoreContainerImagePullPolicy p).Comments,
      ∃ c ∈ p.Spec.InitContainers ++ p.Spec.Containers, cm.Path = c.Name) ∧
    (∀ cm ∈ (scoreContainerProbes svcs p).Comments,
      ∃ c ∈ p.Spec.InitContainers ++ p.Spec.Containers, cm.Path = c.Name) ∧
    (∀ cm ∈ (scoreContainerSecurityContext p).Comments,
      ∃ c ∈ p.Spec.InitContainers ++ p.Spec.Containers, cm.Path = c.Name) := by
  refine ⟨?_, ?_, ?_, ?_, ?_, ?_⟩
  · intro cm hcm
    rw [limits_comments, List.mem_append, List.mem_flatMap] at hcm
    rcases hcm with ⟨c, hc, hm⟩ | hm
    · exact Or.inl ⟨c, hc, path_of_mem_limitsComments c cm hm⟩
    · split_ifs at hm with hlen
      · rw [List.mem_singleton] at hm
        exact Or.inr ⟨List.length_eq_zero.mp hlen, hm⟩
      · cases hm
  · intro h
    have hall : allContainers p = [] := h
    rw [limits_comments, hall]
    rfl
  · intro cm hcm
    rw [imageTag_comments, List.mem_map] at hcm
    obtain ⟨c, hc, rfl⟩ := hcm
    exact ⟨c, (List.mem_filter.mp hc).1, rfl⟩
  · intro cm hcm
    rw [pullPolicy_comments, List.mem_map] at hcm
    obtain ⟨c, hc, rfl⟩ := hcm
    exact ⟨c, (List.mem_filter.mp hc).1, rfl⟩
  · intro cm hcm
    rw [probes_comments_eq, List.mem_flatMap] at hcm
    obtain ⟨c, hc, hm⟩ := hcm
    exact ⟨c, hc, path_of_mem_probesComments _ c cm hm⟩
  · intro cm hcm
    rw [security_comments, List.mem_flatMap] at hcm
    obtain ⟨c, hc, hm⟩ := hcm
    exact ⟨c, hc, path_of_mem_securityComments c cm hm⟩

/-- An instance of C15: every comment of the limits check on the pod whose one container
is named `web` has subject `web`. -/
theorem comment_subject_is_container_witness :
    ∀ cm ∈ (scoreContainerLimits fooWebPod).Comments, cm.Path = "web" := by
  intro cm hcm
  rcases (comment_subject_is_container [] fooWebPod).1 cm hcm with ⟨c, hc, hp⟩ | ⟨he, _⟩
  · rw [show fooWebPod.Spec.InitContainers ++ fooWebPod.Spec.Containers = [bareContainer]
      from rfl, List.mem_singleton] at hc
    rw [hp, hc]
    rfl
  · cases he

/-- C16: init containers and regular containers are evaluated as one concatenated list.
For each of the five checks and all container lists `I` and `R`, the `TestScore` of the
pod with init containers `I` and regular containers `R` equals that of the pod with no
init containers and regular containers `I ++ R`, labels and services being the same. -/
theorem init_and_regular_uniform (svcs : List Service) (labels : List (String × String))
    (I R : List Container) :
    scoreContainerLimits ⟨labels, ⟨I, R⟩⟩ = scoreContainerLimits ⟨labels, ⟨[], I ++ R⟩⟩ ∧
    scoreContainerImageTag ⟨labels, ⟨I, R⟩⟩ = scoreContainerImageTag ⟨labels, ⟨[], I ++ R⟩⟩ ∧
    scoreContainerImagePullPolicy ⟨labels, ⟨I, R⟩⟩ =
      scoreContainerImagePullPolicy ⟨labels, ⟨[], I ++ R⟩⟩ ∧
    scoreContainerProbes svcs ⟨labels, ⟨I, R⟩⟩ =
      scoreContainerProbes svcs ⟨labels, ⟨[], I ++ R⟩⟩ ∧
    scoreContainerSecurityContext ⟨labels, ⟨I, R⟩⟩ =
      scoreContainerSecurityContext ⟨labels, ⟨[], I ++ R⟩⟩ := by
  have hall : allContainers ⟨labels, ⟨I, R⟩⟩ = allContainers ⟨labels, ⟨[], I ++ R⟩⟩ := rfl
  have ht : isTargetedByService svcs ⟨labels, ⟨I, R⟩⟩ =
      isTargetedByService svcs ⟨labels, ⟨[], I ++ R⟩⟩ := rfl
  refine ⟨?_, ?_, ?_, ?_, ?_⟩
  · simp only [scoreContainerLimits, hall]
  · simp only [scoreContainerImageTag, hall]
  · simp only [scoreContainerImagePullPolicy, hall]
  · simp only [scoreContainerProbes, probesLoop, hall, ht]
  · simp only [scoreContainerSecurityContext, hall]

/-- C17: the probe flags of `scoreContainerProbes` are pod-wide ORs. Two pod templates
with the same labels get the same grade whenever they agree on whether some container
has a readiness probe, whether some container has a liveness probe and whether some
container has identical probes. So a pod targeted by a service with two containers, the
first with only a liveness probe and the second with only a readiness probe, gets grade
10 with two comments: the missing-readinessProbe comment for the first container and the
missing-livenessProbe comment for the second. -/
theorem probe_flags_pod_wide (svcs : List Service) (p q : PodTemplateSpec) :
    (p.Labels = q.Labels → (SomeReadiness p ↔ SomeReadiness q) →
      (SomeLiveness p ↔ SomeLiveness q) → (SomeIdentical p ↔ SomeIdentical q) →
      (scoreContainerProbes svcs p).Grade = (scoreContainerProbes svcs q).Grade) ∧
    (∀ c₁ c₂ : Container, isTargetedByService svcs p = true →
      p.Spec.InitContainers ++ p.Spec.Containers = [c₁, c₂] →
      c₁.LivenessProbe ≠ none → c₁.ReadinessProbe = none →
      c₂.ReadinessProbe ≠ none → c₂.LivenessProbe = none →
      (scoreContainerProbes svcs p).Grade = 10 ∧
      (scoreContainerProbes svcs p).Comments =
        [⟨c₁.Name, "Container is missing a readinessProbe",
            "Without a readinessProbe Services will start sending traffic to this pod before it's ready"⟩,
          ⟨c₂.Name, "Container is missing a livenessProbe",
            "Without a livenessProbe kubelet can not restart the Pod if it has crashed"⟩]) := by
  constructor
  · intro hlab hr hl hi
    have eqb : ∀ a b : Bool, (a = true ↔ b = true) → a = b := by
      intro a b h
      cases a <;> cases b <;> simp_all
    rw [probes_grade_eq, probes_grade_eq, isTargetedByService_congr svcs p q hlab,
      eqb _ _ ((someLiveness_iff p).trans (hl.trans (someLiveness_iff q).symm)),
      eqb _ _ ((someReadiness_iff p).trans (hr.trans (someReadiness_iff q).symm)),
      eqb _ _ ((someIdentical_iff p).trans (hi.trans (someIdentical_iff q).symm))]
  · intro c₁ c₂ ht hall h1l h1r h2r h2l
    have hall' : allContainers p = [c₁, c₂] := hall
    obtain ⟨l₁, hl₁⟩ := Option.ne_none_iff_exists'.mp h1l
    obtain ⟨r₂, hr₂⟩ := Option.ne_none_iff_exists'.mp h2r
    constructor
    · rw [probes_grade_eq, hall', ht]
      simp [reportsIdentical, hl₁, h1r, hr₂, h2l, probesGrade]
    · rw [probes_comments_eq, hall', ht]
      simp [probesComments, identityComments, hl₁, h1r, hr₂, h2l, missingReadinessComment,
        missingLivenessComment]

/-- An instance of C17: the pod labelled `{app: foo}` with the containers `live` (liveness
probe only) and `web` (readiness probe only), targeted by the service with selector
`{app: foo}`, gets grade 10 and two comments. -/
theorem probe_flags_pod_wide_witness :
    (scoreContainerProbes [fooService]
      ⟨[("app", "foo")], ⟨[], [liveContainer, readyContainer]⟩⟩).Grade = 10 ∧
    (scoreContainerProbes [fooService]
      ⟨[("app", "foo")], ⟨[], [liveContainer, readyContainer]⟩⟩).Comments =
      [⟨"live", "Container is missing a readinessProbe",
          "Without a readinessProbe Services will start sending traffic to this pod before it's ready"⟩,
        ⟨"web", "Container is missing a livenessProbe",
          "Without a livenessProbe kubelet can not restart the Pod if it has crashed"⟩] :=
  (probe_flags_pod_wide [fooService]
    ⟨[("app", "foo")], ⟨[], [liveContainer, readyContainer]⟩⟩
    ⟨[("app", "foo")], ⟨[], [liveContainer, readyContainer]⟩⟩).2
    liveContainer readyContainer (by decide) rfl (by decide) rfl (by decide) rfl

/-- C18: every check is deterministic and the probe check is independent of enumeration
order. Each check is a function of the pod template (and the service list), so two runs
on the same input give the same grade and the same ordered comments; the only loops over
Go maps are those of `scoreContainerProbes` over the services' selectors, and its
`TestScore` is unchanged under any permutation of the service list and under any
reordering of the key/value entries of each service selector. -/
theorem checks_deterministic_order_independent (svcs : List Service) (p : PodTemplateSpec) :
    (∀ q : PodTemplateSpec, q = p →
      scoreContainerLimits q = scoreContainerLimits p ∧
      scoreContainerImageTag q = scoreContainerImageTag p ∧
      scoreContainerImagePullPolicy q = scoreContainerImagePullPolicy p ∧
      scoreContainerSecurityContext q = scoreContainerSecurityContext p ∧
      scoreContainerProbes svcs q = scoreContainerProbes svcs p) ∧
    (∀ svcs' : List Service, svcs.Perm svcs' →
      scoreContainerProbes svcs' p = scoreContainerProbes svcs p) ∧
    (∀ svcs' : List Service,
      List.Forall₂ (fun s s' : Service => s.Spec.Selector.Perm s'.Spec.Selector) svcs svcs' →
      scoreContainerProbes svcs' p = scoreContainerProbes svcs p) ∧
    (∀ svcs' svcs'' : List Service, svcs.Perm svcs' →
      List.Forall₂ (fun s s' : Service => s.Spec.Selector.Perm s'.Spec.Selector) svcs' svcs'' →
      scoreContainerProbes svcs'' p = scoreContainerProbes svcs p) := by
  have hperm : ∀ a b : List Service, a.Perm b →
      isTargetedByService b p = isTargetedByService a p := by
    intro a b h
    apply bool_eq_of_iff
    rw [isTargetedByService_iff, isTargetedByService_iff]
    exact (someEntryMatches_perm a b p h).symm
  have hre : ∀ a b : List Service,
      List.Forall₂ (fun s s' : Service => s.Spec.Selector.Perm s'.Spec.Selector) a b →
      isTargetedByService b p = isTargetedByService a p := by
    intro a b h
    apply bool_eq_of_iff
    rw [isTargetedByService_iff, isTargetedByService_iff]
    exact (someEntryMatches_reorder a b p h).symm
  refine ⟨?_, ?_, ?_, ?_⟩
  · intro q hq
    subst hq
    exact ⟨rfl, rfl, rfl, rfl, rfl⟩
  · intro svcs' h
    exact scoreContainerProbes_congr _ _ p (hperm _ _ h)
  · intro svcs' h
    exact scoreContainerProbes_congr _ _ p (hre _ _ h)
  · intro svcs' svcs'' h h'
    exact scoreContainerProbes_congr _ _ p ((hre _ _ h').trans (hperm _ _ h))

/-- An instance of C18: exchanging the two services, and the two entries of the selector
`{app: foo, tier: api}`, leaves the result on the pod labelled `{app: foo, tier: web}`
unchanged. -/
theorem checks_deterministic_order_independent_witness :
    scoreContainerProbes [⟨⟨[("tier", "api"), ("app", "foo")]⟩⟩, emptySelectorService] fooWebPod =
      scoreContainerProbes [emptySelectorService, fooApiService] fooWebPod :=
  (checks_deterministic_order_independent [emptySelectorService, fooApiService] fooWebPod).2.2.2
    [fooApiService, emptySelectorService]
    [⟨⟨[("tier", "api"), ("app", "foo")]⟩⟩, emptySelectorService]
    (List.Perm.swap _ _ _)
    (List.Forall₂.cons (List.Perm.swap _ _ _)
      (List.Forall₂.cons (List.Perm.refl _) List.Forall₂.nil))

/-- C19: the final `else` of the grading ladder of `scoreContainerProbes` is unreachable,
and the ladder has a closed form. With L, R, T as liveness present, readiness present and
targeted: no values of the flags fail all four earlier guards; the grade is 5 exactly
when R and not L; it is 0 exactly when not R and (not L or T); it is 7 or 10 exactly when
L and (R or not T). A pod with no containers gets grade 0 with no comments. -/
theorem probesGrade_closed_form (svcs : List Service) (p : PodTemplateSpec) :
    (∀ l r t : Bool,
      ¬ ((l && (r || !t)) = false ∧ (!r && !l) = false ∧ (t && !r) = false ∧ (!l) = false)) ∧
    (∀ l r t i : Bool,
      probesGrade l r t i =
        if l && (r || !t) then (if !i then 10 else 7)
        else if !r && !l then 0
        else if t && !r then 0
        else 5) ∧
    ((scoreContainerProbes svcs p).Grade = 5 ↔ SomeReadiness p ∧ ¬ SomeLiveness p) ∧
    ((scoreContainerProbes svcs p).Grade = 0 ↔
      ¬ SomeReadiness p ∧ (¬ SomeLiveness p ∨ isTargetedByService svcs p = true)) ∧
    ((scoreContainerProbes svcs p).Grade = 7 ∨ (scoreContainerProbes svcs p).Grade = 10 ↔
      SomeLiveness p ∧ (SomeReadiness p ∨ ¬ isTargetedByService svcs p = true)) ∧
    (p.Spec.InitContainers ++ p.Spec.Containers = [] →
      (scoreContainerProbes svcs p).Grade = 0 ∧ (scoreContainerProbes svcs p).Comments = []) := by
  refine ⟨by decide, by decide, ?_, ?_, ?_, ?_⟩
  · rw [probes_grade_eq, ← someLiveness_iff, ← someReadiness_iff]
    cases (allContainers p).any (fun c => c.LivenessProbe.isSome) <;>
      cases (allContainers p).any (fun c => c.ReadinessProbe.isSome) <;>
      cases (allContainers p).any reportsIdentical <;>
      cases isTargetedByService svcs p <;> simp [probesGrade]
  · rw [probes_grade_eq, ← someLiveness_iff, ← someReadiness_iff]
    cases (allContainers p).any (fun c => c.LivenessProbe.isSome) <;>
      cases (allContainers p).any (fun c => c.ReadinessProbe.isSome) <;>
      cases (allContainers p).any reportsIdentical <;>
      cases isTargetedByService svcs p <;> simp [probesGrade]
  · rw [probes_grade_eq, ← someLiveness_iff, ← someReadiness_iff]
    cases (allContainers p).any (fun c => c.LivenessProbe.isSome) <;>
      cases (allContainers p).any (fun c => c.ReadinessProbe.isSome) <;>
      cases (allContainers p).any reportsIdentical <;>
      cases isTargetedByService svcs p <;> simp [probesGrade]
  · intro h
    have hall : allContainers p = [] := h
    rw [probes_grade_eq, probes_comments_eq, hall]
    cases isTargetedByService svcs p <;> exact ⟨rfl, rfl⟩

/-- An instance of C19: the pod template without containers and the service with selector
`{app: foo}`. -/
theorem probesGrade_closed_form_witness :
    (scoreContainerProbes [fooService] ⟨[("app", "foo")], ⟨[], []⟩⟩).Grade = 0 ∧
    (scoreContainerProbes [fooService] ⟨[("app", "foo")], ⟨[], []⟩⟩).Comments = [] :=
  (probesGrade_closed_form [fooService] ⟨[("app", "foo")], ⟨[], []⟩⟩).2.2.2.2.2 rfl

/-- C20: for `scoreContainerLimits`, `scoreContainerImageTag`,
`scoreContainerImagePullPolicy` and `scoreContainerSecurityContext` the grade is 10 if and
only if the comment list is empty. `scoreContainerProbes` does not have this property: a
pod without containers gets grade 0 with no comment, and the targeted pod with a
liveness-only and a readiness-only container gets grade 10 with two comments. -/
theorem grade_ten_iff_no_comments (p : PodTemplateSpec) :
    ((scoreContainerLimits p).Grade = 10 ↔ (scoreContainerLimits p).Comments = []) ∧
    ((scoreContainerImageTag p).Grade = 10 ↔ (scoreContainerImageTag p).Comments = []) ∧
    ((scoreContainerImagePullPolicy p).Grade = 10 ↔
      (scoreContainerImagePullPolicy p).Comments = []) ∧
    ((scoreContainerSecurityContext p).Grade = 10 ↔
      (scoreContainerSecurityContext p).Comments = []) ∧
    ((scoreContainerProbes [] ⟨[], ⟨[], []⟩⟩).Grade = 0 ∧
      (scoreContainerProbes [] ⟨[], ⟨[], []⟩⟩).Comments = []) ∧
    ((scoreContainerProbes [fooService]
        ⟨[("app", "foo")], ⟨[], [liveContainer, readyContainer]⟩⟩).Grade = 10 ∧
      (scoreContainerProbes [fooService]
        ⟨[("app", "foo")], ⟨[], [liveContainer, readyContainer]⟩⟩).Comments ≠ []) := by
  refine ⟨?_, ?_, ?_, ?_, by decide, by decide⟩
  · rw [limits_grade_eq, limits_comments]
    by_cases hlen : (allContainers p).length = 0
    · simp [hlen]
    · rw [if_neg hlen, if_neg hlen, List.append_nil, List.flatMap_eq_nil_iff]
      simp only [limitsComments_eq_nil_iff]
      cases hl : (allContainers p).any missingLimit <;>
        cases hr : (allContainers p).any missingRequest
      · simp only [List.any_eq_false, Bool.not_eq_true] at hl hr
        simp only [Bool.false_eq_true, if_false, true_iff]
        exact fun c hc => ⟨hl c hc, hr c hc⟩
      · simp only [List.any_eq_true] at hr
        obtain ⟨c, hc, hcr⟩ := hr
        simp only [Bool.false_eq_true, if_false, if_true]
        constructor
        · intro h
          cases h
        · intro h
          rw [(h c hc).2] at hcr
          cases hcr
      · simp only [List.any_eq_true] at hl
        obtain ⟨c, hc, hcl⟩ := hl
        simp only [if_true]
        constructor
        · intro h
          cases h
        · intro h
          rw [(h c hc).1] at hcl
          cases hcl
      · simp only [List.any_eq_true] at hl
        obtain ⟨c, hc, hcl⟩ := hl
        simp only [if_true]
        constructor
        · intro h
          cases h
        · intro h
          rw [(h c hc).1] at hcl
          cases hcl
  · rw [imageTag_grade_eq, imageTag_comments, List.map_eq_nil_iff, List.filter_eq_nil_iff]
    cases h : (allContainers p).any hasLatestTag
    · simp only [List.any_eq_false] at h
      simpa using h
    · simp only [List.any_eq_true] at h
      obtain ⟨c, hc, hcl⟩ := h
      simp only [if_true]
      constructor
      · intro h
        cases h
      · intro h
        exact absurd hcl (h c hc)
  · rw [pullPolicy_grade_eq, pullPolicy_comments, List.map_eq_nil_iff, List.filter_eq_nil_iff]
    cases h : (allContainers p).any notPullAlways
    · simp only [List.any_eq_false] at h
      simpa using h
    · simp only [List.any_eq_true] at h
      obtain ⟨c, hc, hcl⟩ := h
      simp only [if_true]
      constructor
      · intro h
        cases h
      · intro h
        exact absurd hcl (h c hc)
  · rw [security_grade_eq, security_comments, List.flatMap_eq_nil_iff]
    simp only [securityComments_eq_nil_iff]
    by_cases hf : ((allContainers p).any (secFlag isPrivileged) ||
        (allContainers p).any (secFlag isWritableRootFS) ||
        (allContainers p).any (secFlag isLowUserID) ||
        (allContainers p).any (secFlag isLowGroupID)) = true
    · rw [if_pos hf]
      constructor
      · intro h
        cases h
      · intro h
        exfalso
        simp only [Bool.or_eq_true, List.any_eq_true] at hf
        rcases hf with ((⟨c, hc, hx⟩ | ⟨c, hc, hx⟩) | ⟨c, hc, hx⟩) | ⟨c, hc, hx⟩
        · rw [(h c hc).1] at hx
          cases hx
        · rw [(h c hc).2.1] at hx
          cases hx
        · rw [(h c hc).2.2.1] at hx
          cases hx
        · rw [(h c hc).2.2.2] at hx
          cases hx
    · rw [if_neg hf]
      simp only [Bool.or_eq_true, List.any_eq_true, not_or, not_exists, not_and,
        Bool.not_eq_true] at hf
      simp only [true_iff]
      intro c hc
      exact ⟨hf.1.1.1 c hc, hf.1.1.2 c hc, hf.1.2 c hc, hf.2 c hc⟩

/-- An instance of C16: the limits check on the init container `web` without resources
and a regular container with limits. -/
theorem init_and_regular_uniform_witness :
    scoreContainerLimits ⟨[], ⟨[bareContainer], [limitedContainer]⟩⟩ =
      scoreContainerLimits ⟨[], ⟨[], [bareContainer, limitedContainer]⟩⟩ :=
  (init_and_regular_uniform [] [] [bareContainer] [limitedContainer]).1

/-- An instance of C20: the image-tag check on the pod whose one container has image
`app:1.0` gives grade 10, hence no comment. -/
theorem grade_ten_iff_no_comments_witness :
    (scoreContainerImageTag fooWebPod).Comments = [] :=
  (grade_ten_iff_no_comments fooWebPod).2.1.mp (by decide)

end KubeScore
